import Mathlib

/-!
Verification of the wallet-ledger and referral-bonus subsystem of the
Rigaby backend.

The Lean definitions below are a shallow embedding of the TypeScript
services `WalletService` (wallet.service.ts) and `ReferralService`
(referral.service.ts) together with the relational tables they operate
on (`wallets`, `transactions`, `referral_bonuses`, `users`).

Modelling conventions:
* Monetary amounts (Prisma `Decimal` columns) are rational numbers.
* The database is an explicit state record `DB`; every Prisma
  `$transaction` block becomes a function `DB → Except Err (DB × _)`:
  an `Except.error` result models the rolled-back unit of work (no
  partial state is retained), mirroring Prisma's transactional
  semantics.
* `findUnique` becomes `List.find?`; `update` by primary key becomes a
  `List.map` that rewrites the matching row; `create` appends a row.
* Generated cuid primary keys for transactions are modelled by the
  counter `nextTxId`; the wall clock (`new Date()`) is threaded in as
  an explicit `now : String` argument.
* The referral engine's `processSubscriptionReferral` and
  `processTaskReferral` are *not* wrapped in a database transaction in
  the source, so they return the state reached so far *and* the
  outcome: `DB × Except Err _` (a thrown error does not undo the
  individual ledger credits that already committed).
-/

namespace Rigaby

/-- Prisma enum `TransactionType`. -/
inductive TransactionType
  | TASK_REWARD
  | TOURNAMENT_WIN
  | REFERRAL_BONUS
  | SUBSCRIPTION_PAYMENT
  | WITHDRAWAL
  deriving DecidableEq, Repr

/-- Prisma enum `TransactionStatus`. -/
inductive TransactionStatus
  | PENDING
  | COMPLETED
  | FAILED
  deriving DecidableEq, Repr

/-- Prisma enum `ReferralBonusType`. -/
inductive ReferralBonusType
  | SUBSCRIPTION
  | TASK_REWARD
  deriving DecidableEq, Repr

/-- Prisma enum `ReferralBonusStatus`. -/
inductive ReferralBonusStatus
  | PENDING
  | PAID
  | FAILED
  deriving DecidableEq, Repr

/-- JSON metadata objects are modelled as key/value lists. -/
abbrev Metadata := List (String × String)

/-- Row of the `users` table (the fields the ledger and the referral
engine read: identity, email for transfer recipient lookup, and the
self-referential referral edge `referredById`). -/
structure User where
  id : String
  email : String
  firstName : String
  lastName : String
  referredById : Option String
  deriving DecidableEq, Repr

/-- Row of the `wallets` table. -/
structure Wallet where
  id : String
  userId : String
  balance : ℚ
  locked : ℚ
  deriving DecidableEq, Repr

/-- Row of the `transactions` table. -/
structure Transaction where
  id : Nat
  walletId : String
  type : TransactionType
  amount : ℚ
  description : String
  status : TransactionStatus
  metadata : Metadata
  deriving DecidableEq, Repr

/-- Row of the `referral_bonuses` table. -/
structure ReferralBonus where
  referrerId : String
  referredUserId : String
  level : Nat
  bonusPercentage : ℚ
  amount : ℚ
  type : ReferralBonusType
  status : ReferralBonusStatus
  metadata : Metadata
  deriving DecidableEq, Repr

/-- The database state visible to the ledger and the referral engine. -/
structure DB where
  users : List User
  wallets : List Wallet
  transactions : List Transaction
  bonuses : List ReferralBonus
  nextTxId : Nat
  deriving DecidableEq, Repr

/-- Errors raised by the services: `NotFoundException`,
`BadRequestException`, and the storage layer's unique-constraint
violation (Prisma error P2002). -/
inductive Err
  | notFound (msg : String)
  | badRequest (msg : String)
  | uniqueViolation (msg : String)
  deriving DecidableEq, Repr

instance {e a : Type} [DecidableEq e] [DecidableEq a] : DecidableEq (Except e a) := fun x y =>
  match x, y with
  | .error u, .error v => decidable_of_iff (u = v) (by simp)
  | .ok u, .ok v => decidable_of_iff (u = v) (by simp)
  | .error _, .ok _ => isFalse (by simp)
  | .ok _, .error _ => isFalse (by simp)

/-- `prisma.wallet.findUnique({ where: { userId } })`. -/
def findWalletByUserId (db : DB) (userId : String) : Option Wallet :=
  db.wallets.find? (fun w => w.userId == userId)

/-- `prisma.wallet.findUnique({ where: { id } })`. -/
def findWalletById (db : DB) (walletId : String) : Option Wallet :=
  db.wallets.find? (fun w => w.id == walletId)

/-- `prisma.user.findUnique({ where: { id } })`. -/
def findUserById (db : DB) (userId : String) : Option User :=
  db.users.find? (fun u => u.id == userId)

/-- `prisma.user.findUnique({ where: { email } })`. -/
def findUserByEmail (db : DB) (email : String) : Option User :=
  db.users.find? (fun u => u.email == email)

/-- `prisma.transaction.findUnique({ where: { id } })`. -/
def findTransactionById (db : DB) (txId : Nat) : Option Transaction :=
  db.transactions.find? (fun t => t.id == txId)

/-- `prisma.wallet.update({ where: { id: walletId }, data: … })`. -/
def updateWallet (db : DB) (walletId : String) (f : Wallet → Wallet) : DB :=
  { db with wallets := db.wallets.map (fun w => if w.id == walletId then f w else w) }

/-- `prisma.transaction.update({ where: { id: txId }, data: … })`. -/
def updateTransaction (db : DB) (txId : Nat) (f : Transaction → Transaction) : DB :=
  { db with transactions := db.transactions.map (fun t => if t.id == txId then f t else t) }

/-- `prisma.transaction.create`: appends the row and advances the id
counter. -/
def appendTransaction (db : DB) (t : Transaction) : DB :=
  { db with transactions := db.transactions ++ [t], nextTxId := db.nextTxId + 1 }

/-- `WalletService.addFunds` (wallet.service.ts): credit `amount` to the
wallet's balance and record a COMPLETED transaction of the given type.
The source performs no validation of `amount`. -/
def addFunds (db : DB) (userId : String) (amount : ℚ) (type : TransactionType)
    (description : String) (metadata : Metadata) : Except Err (DB × Transaction) :=
  match findWalletByUserId db userId with
  | none => .error (.notFound "Wallet not found")
  | some wallet =>
    let newBalance := wallet.balance + amount
    let db1 := updateWallet db wallet.id (fun w => { w with balance := newBalance })
    let tx : Transaction :=
      { id := db1.nextTxId, walletId := wallet.id, type := type, amount := amount,
        description := description, status := .COMPLETED, metadata := metadata }
    .ok (appendTransaction db1 tx, tx)

/-- `WalletService.lockFunds`: move `amount` from balance to locked,
requiring `balance ≥ amount`; records a PENDING WITHDRAWAL
transaction. -/
def lockFunds (db : DB) (userId : String) (amount : ℚ)
    (description : String) (metadata : Metadata) : Except Err (DB × Transaction) :=
  match findWalletByUserId db userId with
  | none => .error (.notFound "Wallet not found")
  | some wallet =>
    if wallet.balance < amount then
      .error (.badRequest "Insufficient balance to lock funds")
    else
      let newBalance := wallet.balance - amount
      let newLocked := wallet.locked + amount
      let db1 := updateWallet db wallet.id
        (fun w => { w with balance := newBalance, locked := newLocked })
      let tx : Transaction :=
        { id := db1.nextTxId, walletId := wallet.id, type := .WITHDRAWAL, amount := amount,
          description := description, status := .PENDING,
          metadata := metadata ++ [("lockType", "funds_locked")] }
      .ok (appendTransaction db1 tx, tx)

/-- `WalletService.unlockFunds`: move `amount` from locked back to
balance, requiring `locked ≥ amount`; records a COMPLETED TASK_REWARD
transaction. -/
def unlockFunds (db : DB) (userId : String) (amount : ℚ)
    (description : String) (metadata : Metadata) : Except Err (DB × Transaction) :=
  match findWalletByUserId db userId with
  | none => .error (.notFound "Wallet not found")
  | some wallet =>
    if wallet.locked < amount then
      .error (.badRequest "Insufficient locked funds to unlock")
    else
      let newBalance := wallet.balance + amount
      let newLocked := wallet.locked - amount
      let db1 := updateWallet db wallet.id
        (fun w => { w with balance := newBalance, locked := newLocked })
      let tx : Transaction :=
        { id := db1.nextTxId, walletId := wallet.id, type := .TASK_REWARD, amount := amount,
          description := description, status := .COMPLETED,
          metadata := metadata ++ [("unlockType", "funds_unlocked")] }
      .ok (appendTransaction db1 tx, tx)

/-- `WalletService.requestWithdrawal`: validates `balance ≥ amount`
(first) and `amount ≥ 1` (second), moves `amount` from balance to
locked, and records a PENDING WITHDRAWAL transaction carrying the
payment method and account details in its metadata. -/
def requestWithdrawal (db : DB) (userId : String) (amount : ℚ)
    (paymentMethod accountDetails now : String) : Except Err (DB × Transaction) :=
  match findWalletByUserId db userId with
  | none => .error (.notFound "Wallet not found")
  | some wallet =>
    if wallet.balance < amount then
      .error (.badRequest "Insufficient balance for withdrawal")
    else if amount < 1 then
      .error (.badRequest "Minimum withdrawal amount is $1")
    else
      let newBalance := wallet.balance - amount
      let db1 := updateWallet db wallet.id
        (fun w => { w with balance := newBalance, locked := wallet.locked + amount })
      let tx : Transaction :=
        { id := db1.nextTxId, walletId := wallet.id, type := .WITHDRAWAL, amount := amount,
          description := "Withdrawal via " ++ paymentMethod, status := .PENDING,
          metadata := [("paymentMethod", paymentMethod),
                       ("accountDetails", accountDetails),
                       ("requestedAt", now)] }
      .ok (appendTransaction db1 tx, tx)

/-- `WalletService.transferFunds`: peer-to-peer transfer. Checks sender
balance, resolves the recipient by email, rejects self-transfer, then
debits the sender, credits the recipient, and records one transaction
per wallet (sender: COMPLETED WITHDRAWAL; recipient: COMPLETED
TASK_REWARD). -/
def transferFunds (db : DB) (userId : String) (recipientEmail : String) (amount : ℚ)
    (description : Option String) : Except Err (DB × Transaction) :=
  match findWalletByUserId db userId with
  | none => .error (.notFound "Sender wallet not found")
  | some senderWallet =>
    if senderWallet.balance < amount then
      .error (.badRequest "Insufficient balance for transfer")
    else
      match findUserByEmail db recipientEmail with
      | none => .error (.notFound "Recipient not found")
      | some recipient =>
        match findWalletByUserId db recipient.id with
        | none => .error (.notFound "Recipient wallet not found")
        | some recipientWallet =>
          if recipient.id == userId then
            .error (.badRequest "Cannot transfer funds to yourself")
          else
            let db1 := updateWallet db senderWallet.id
              (fun w => { w with balance := senderWallet.balance - amount })
            let db2 := updateWallet db1 recipientWallet.id
              (fun w => { w with balance := recipientWallet.balance + amount })
            let senderTx : Transaction :=
              { id := db2.nextTxId, walletId := senderWallet.id, type := .WITHDRAWAL,
                amount := amount,
                description := description.getD ("Transfer to " ++ recipientEmail),
                status := .COMPLETED,
                metadata := [("transferType", "peer_to_peer"),
                             ("recipientEmail", recipientEmail),
                             ("recipientName",
                              recipient.firstName ++ " " ++ recipient.lastName)] }
            let db3 := appendTransaction db2 senderTx
            let recipientTx : Transaction :=
              { id := db3.nextTxId, walletId := recipientWallet.id, type := .TASK_REWARD,
                amount := amount, description := "Transfer from user",
                status := .COMPLETED,
                metadata := [("transferType", "peer_to_peer"),
                             ("senderId", userId),
                             ("senderName",
                              recipient.firstName ++ " " ++ recipient.lastName)] }
            .ok (appendTransaction db3 recipientTx, senderTx)

/-- `WalletService.processWithdrawal` (admin approval/rejection): only a
PENDING WITHDRAWAL transaction may be processed; the transaction's
status is set to the decision and `processedAt`/`adminNotes` are
appended to its metadata; a FAILED decision returns the held amount
from locked to balance, a COMPLETED decision releases it from locked
only. -/
def processWithdrawal (db : DB) (withdrawalId : Nat) (status : TransactionStatus)
    (adminNotes now : String) : Except Err (DB × Transaction) :=
  match findTransactionById db withdrawalId with
  | none => .error (.notFound "Withdrawal transaction not found")
  | some transaction =>
    if transaction.type ≠ TransactionType.WITHDRAWAL then
      .error (.badRequest "Transaction is not a withdrawal")
    else if transaction.status ≠ TransactionStatus.PENDING then
      .error (.badRequest "Withdrawal already processed")
    else
      let updatedTx : Transaction :=
        { transaction with
            status := status,
            metadata := transaction.metadata
              ++ [("processedAt", now), ("adminNotes", adminNotes)] }
      let db1 := updateTransaction db withdrawalId (fun t =>
        { t with
            status := status,
            metadata := t.metadata
              ++ [("processedAt", now), ("adminNotes", adminNotes)] })
      let db2 :=
        if status = TransactionStatus.FAILED then
          match findWalletById db1 transaction.walletId with
          | none => db1
          | some wallet =>
            updateWallet db1 transaction.walletId (fun w =>
              { w with balance := wallet.balance + transaction.amount,
                       locked := wallet.locked - transaction.amount })
        else db1
      let db3 :=
        if status = TransactionStatus.COMPLETED then
          match findWalletById db2 transaction.walletId with
          | none => db2
          | some wallet =>
            updateWallet db2 transaction.walletId (fun w =>
              { w with locked := wallet.locked - transaction.amount })
        else db2
      .ok (db3, updatedTx)

/-- The transaction types summed as earnings by
`WalletService.getWalletStats`. -/
def earningTypes : List TransactionType :=
  [.TASK_REWARD, .REFERRAL_BONUS, .TOURNAMENT_WIN]

/-- The `totalEarnings` aggregate of `WalletService.getWalletStats`:
sum of COMPLETED TASK_REWARD/REFERRAL_BONUS/TOURNAMENT_WIN transaction
amounts on the wallet. -/
def totalEarnings (db : DB) (walletId : String) : ℚ :=
  ((db.transactions.filter (fun t =>
      t.walletId == walletId && earningTypes.contains t.type
        && t.status == TransactionStatus.COMPLETED)).map Transaction.amount).sum

/-- The `totalWithdrawals` aggregate of `WalletService.getWalletStats`:
sum of COMPLETED WITHDRAWAL transaction amounts on the wallet. -/
def totalWithdrawals (db : DB) (walletId : String) : ℚ :=
  ((db.transactions.filter (fun t =>
      t.walletId == walletId && t.type == TransactionType.WITHDRAWAL
        && t.status == TransactionStatus.COMPLETED)).map Transaction.amount).sum

/-! ## Referral bonus engine (`ReferralService`, referral.service.ts) -/

/-- `bonusConfig.directReferral`: the level-0 (direct referral) rate. -/
def directReferralRate : ℚ := 25 / 100

/-- `bonusConfig.levels`: the rates for indirect levels 1..5. -/
def levelRates : List ℚ := [3/100, 2/100, 1/100, 1/100, 1/100]

/-- `prisma.referralBonus.create` against the `referral_bonuses` table,
whose unique index `referral_bonuses_referrerId_referredUserId_type_key`
(migration 20251130001803) makes a second row with the same
(referrerId, referredUserId, type) triple fail with a constraint
violation. -/
def createReferralBonus (db : DB) (b : ReferralBonus) : Except Err DB :=
  if db.bonuses.any (fun x => x.referrerId == b.referrerId
      && x.referredUserId == b.referredUserId && x.type == b.type) then
    .error (.uniqueViolation "referral_bonuses_referrerId_referredUserId_type_key")
  else
    .ok { db with bonuses := db.bonuses ++ [b] }

/-- Metadata attached to the level-0 bonus wallet credit and record in
`processSubscriptionReferral`. -/
def directBonusMeta (userId : String) (subscriptionAmount : ℚ) (now : String) : Metadata :=
  [("referredUserId", userId),
   ("level", "0"),
   ("subscriptionAmount", toString subscriptionAmount),
   ("bonusPercentage", toString directReferralRate),
   ("timestamp", now)]

/-- The level-0 `ReferralBonus` row created by
`processSubscriptionReferral`. -/
def directBonusRecord (referrerId userId : String) (subscriptionAmount : ℚ)
    (now : String) : ReferralBonus :=
  { referrerId := referrerId, referredUserId := userId, level := 0,
    bonusPercentage := directReferralRate,
    amount := subscriptionAmount * directReferralRate,
    type := .SUBSCRIPTION, status := .PAID,
    metadata := directBonusMeta userId subscriptionAmount now }

/-- Metadata attached to the level-`currentLevel` bonus wallet credit
and record in `processMultiLevelReferral`. -/
def levelBonusMeta (originalReferredUserId : String) (currentLevel : Nat)
    (subscriptionAmount : ℚ) (now : String) : Metadata :=
  [("originalReferredUserId", originalReferredUserId),
   ("level", toString currentLevel),
   ("subscriptionAmount", toString subscriptionAmount),
   ("bonusPercentage", toString (levelRates.getD (currentLevel - 1) 0)),
   ("timestamp", now)]

/-- The level-`currentLevel` `ReferralBonus` row created by
`processMultiLevelReferral`. -/
def levelBonusRecord (grandReferrerId originalReferredUserId : String)
    (currentLevel : Nat) (subscriptionAmount : ℚ) (now : String) : ReferralBonus :=
  { referrerId := grandReferrerId, referredUserId := originalReferredUserId,
    level := currentLevel,
    bonusPercentage := levelRates.getD (currentLevel - 1) 0,
    amount := subscriptionAmount * levelRates.getD (currentLevel - 1) 0,
    type := .SUBSCRIPTION, status := .PAID,
    metadata := levelBonusMeta originalReferredUserId currentLevel subscriptionAmount now }

/-- `ReferralService.processMultiLevelReferral`: walks the referral
chain upward from `referrerId`, crediting the current referrer's own
referrer `amount * levelRates[currentLevel-1]` at each level, until the
level cap is exceeded or the chain ends. The source wraps the credit,
the record creation, *and the recursive call* in one try/catch whose
handler only logs, so an error at the current level yields the state
accumulated so far and ends the walk. -/
def processMultiLevelReferral (db : DB) (referrerId originalReferredUserId : String)
    (subscriptionAmount : ℚ) (currentLevel : Nat) (now : String) : DB :=
  if levelRates.length < currentLevel then db
  else
    match findUserById db referrerId with
    | none => db
    | some referrer =>
      match referrer.referredById with
      | none => db
      | some grandReferrerId =>
        let levelBonusAmount := subscriptionAmount * levelRates.getD (currentLevel - 1) 0
        match addFunds db grandReferrerId levelBonusAmount .REFERRAL_BONUS
            ("Level " ++ toString currentLevel ++ " referral bonus from network")
            (levelBonusMeta originalReferredUserId currentLevel subscriptionAmount now) with
        | .error _ => db
        | .ok (db1, _) =>
          match createReferralBonus db1
              (levelBonusRecord grandReferrerId originalReferredUserId currentLevel
                subscriptionAmount now) with
          | .error _ => db1
          | .ok db2 =>
            processMultiLevelReferral db2 grandReferrerId originalReferredUserId
              subscriptionAmount (currentLevel + 1) now
  termination_by levelRates.length + 1 - currentLevel
  decreasing_by simp [levelRates] at *; omega

/-- `ReferralService.processSubscriptionReferral`: pays the direct
(level-0) bonus to the subscriber's referrer and then starts the
multi-level walk at level 1. A user without a referrer is a no-op
(`.ok none`). The level-0 credit and record are inside a try/catch that
*rethrows*, so a level-0 error surfaces to the caller, while the state
keeps whatever had already committed (each ledger credit is its own
unit of work). -/
def processSubscriptionReferral (db : DB) (userId : String) (subscriptionAmount : ℚ)
    (now : String) : DB × Except Err (Option (ℚ × String)) :=
  match findUserById db userId with
  | none => (db, .ok none)
  | some user =>
    match user.referredById with
    | none => (db, .ok none)
    | some referrerId =>
      let directBonusAmount := subscriptionAmount * directReferralRate
      match addFunds db referrerId directBonusAmount .REFERRAL_BONUS
          ("Direct referral bonus from " ++ user.firstName ++ " " ++ user.lastName
            ++ "\x27s subscription")
          (directBonusMeta userId subscriptionAmount now) with
      | .error e => (db, .error e)
      | .ok (db1, _) =>
        match createReferralBonus db1
            (directBonusRecord referrerId userId subscriptionAmount now) with
        | .error e => (db1, .error e)
        | .ok db2 =>
          (processMultiLevelReferral db2 referrerId userId subscriptionAmount 1 now,
           .ok (some (directBonusAmount, referrerId)))

/-- Metadata attached to the task-completion bonus credit and record in
`processTaskReferral`. -/
def taskBonusMeta (userId : String) (taskReward : ℚ) (now : String) : Metadata :=
  [("referredUserId", userId),
   ("taskReward", toString taskReward),
   ("bonusPercentage", toString directReferralRate),
   ("timestamp", now)]

/-- The `ReferralBonus` row created by `processTaskReferral`. -/
def taskBonusRecord (referrerId userId : String) (taskReward : ℚ)
    (now : String) : ReferralBonus :=
  { referrerId := referrerId, referredUserId := userId, level := 0,
    bonusPercentage := directReferralRate,
    amount := taskReward * directReferralRate,
    type := .TASK_REWARD, status := .PAID,
    metadata := taskBonusMeta userId taskReward now }

/-- `ReferralService.processTaskReferral`: single-level bonus to the
direct referrer on a task completion; no multi-level walk. The
try/catch rethrows like the subscription path. -/
def processTaskReferral (db : DB) (userId : String) (taskReward : ℚ)
    (now : String) : DB × Except Err (Option (ℚ × String)) :=
  match findUserById db userId with
  | none => (db, .ok none)
  | some user =>
    match user.referredById with
    | none => (db, .ok none)
    | some referrerId =>
      let taskBonusAmount := taskReward * directReferralRate
      match addFunds db referrerId taskBonusAmount .REFERRAL_BONUS
          ("Task completion bonus from " ++ user.firstName ++ " " ++ user.lastName)
          (taskBonusMeta userId taskReward now) with
      | .error e => (db, .error e)
      | .ok (db1, _) =>
        match createReferralBonus db1 (taskBonusRecord referrerId userId taskReward now) with
        | .error e => (db1, .error e)
        | .ok db2 => (db2, .ok (some (taskBonusAmount, referrerId)))

/-- Length of the referral chain above `userId` (number of ancestors
reachable by following `referredById`), cut off at `fuel` links. -/
def chainLen (db : DB) (userId : String) : Nat → Nat
  | 0 => 0
  | fuel + 1 =>
    match findUserById db userId with
    | none => 0
    | some u =>
      match u.referredById with
      | none => 0
      | some r => 1 + chainLen db r fuel

/-! ## Derived state predicates -/

/-- The spec's non-negativity invariant: every wallet has
`balance ≥ 0` and `locked ≥ 0`. -/
def Nonneg (db : DB) : Prop :=
  ∀ w ∈ db.wallets, 0 ≤ w.balance ∧ 0 ≤ w.locked

instance (db : DB) : Decidable (Nonneg db) :=
  List.decidableBAll _ db.wallets

/-- The spec's idempotent-attribution invariant: no two rows of
`referral_bonuses` share the (referrerId, referredUserId, type)
triple — the property the unique index maintains. -/
def UniqueTriples (db : DB) : Prop :=
  db.bonuses.Pairwise (fun a b =>
    ¬(a.referrerId = b.referrerId ∧ a.referredUserId = b.referredUserId ∧ a.type = b.type))

/-- One ledger operation, for statements quantifying over all of them. -/
inductive LedgerOp
  | add (userId : String) (amount : ℚ) (type : TransactionType)
      (description : String) (metadata : Metadata)
  | lock (userId : String) (amount : ℚ) (description : String) (metadata : Metadata)
  | unlock (userId : String) (amount : ℚ) (description : String) (metadata : Metadata)
  | withdraw (userId : String) (amount : ℚ) (paymentMethod accountDetails now : String)
  | processW (withdrawalId : Nat) (status : TransactionStatus) (adminNotes now : String)
  | transfer (userId : String) (recipientEmail : String) (amount : ℚ)
      (description : Option String)

/-- Run a ledger operation, keeping only the resulting state. -/
def runOp (db : DB) : LedgerOp → Except Err DB
  | .add u a ty d m => (addFunds db u a ty d m).map Prod.fst
  | .lock u a d m => (lockFunds db u a d m).map Prod.fst
  | .unlock u a d m => (unlockFunds db u a d m).map Prod.fst
  | .withdraw u a pm ad now => (requestWithdrawal db u a pm ad now).map Prod.fst
  | .processW wid st notes now => (processWithdrawal db wid st notes now).map Prod.fst
  | .transfer u e a d => (transferFunds db u e a d).map Prod.fst

/-- Side conditions under which the ledger preserves non-negativity:
the amount handled is non-negative, and — for `processWithdrawal`,
which performs no such check itself — the wallet's locked funds cover
the processed transaction's amount. -/
def OpOk (db : DB) : LedgerOp → Prop
  | .add _ a _ _ _ => 0 ≤ a
  | .lock _ a _ _ => 0 ≤ a
  | .unlock _ a _ _ => 0 ≤ a
  | .withdraw _ a _ _ _ => 0 ≤ a
  | .processW wid _ _ _ =>
    ∀ t ∈ db.transactions, t.id = wid →
      0 ≤ t.amount ∧ ∀ w ∈ db.wallets, w.id = t.walletId → t.amount ≤ w.locked
  | .transfer _ _ a _ => 0 ≤ a

/-! ## Helper lemmas -/

theorem find?_map_invariant {α : Type} (g : α → α) (p : α → Bool)
    (hp : ∀ a, p (g a) = p a) (l : List α) :
    (l.map g).find? p = (l.find? p).map g := by
  induction l with
  | nil => rfl
  | cons x xs ih =>
    by_cases hx : p x = true
    · simp [List.find?_cons, hp, hx]
    · simp only [Bool.not_eq_true] at hx
      simp [List.find?_cons, hp, hx, ih]

theorem findWalletByUserId_updateWallet (db : DB) (wid : String) (f : Wallet → Wallet)
    (uid : String) (hf : ∀ w, (f w).userId = w.userId) :
    findWalletByUserId (updateWallet db wid f) uid =
      (findWalletByUserId db uid).map (fun w => if w.id == wid then f w else w) := by
  unfold findWalletByUserId updateWallet
  exact find?_map_invariant _ _ (fun a => by by_cases h : a.id == wid <;> simp [h, hf]) _

theorem findWalletById_updateWallet (db : DB) (wid : String) (f : Wallet → Wallet)
    (wid' : String) (hf : ∀ w, (f w).id = w.id) :
    findWalletById (updateWallet db wid f) wid' =
      (findWalletById db wid').map (fun w => if w.id == wid then f w else w) := by
  unfold findWalletById updateWallet
  exact find?_map_invariant _ _ (fun a => by by_cases h : a.id == wid <;> simp [h, hf]) _

theorem findTransactionById_updateTransaction (db : DB) (tid : Nat)
    (f : Transaction → Transaction) (tid' : Nat) (hf : ∀ t, (f t).id = t.id) :
    findTransactionById (updateTransaction db tid f) tid' =
      (findTransactionById db tid').map (fun t => if t.id == tid then f t else t) := by
  unfold findTransactionById updateTransaction
  exact find?_map_invariant _ _ (fun a => by by_cases h : a.id == tid <;> simp [h, hf]) _

@[simp] theorem findWalletByUserId_appendTransaction (db : DB) (t : Transaction)
    (uid : String) :
    findWalletByUserId (appendTransaction db t) uid = findWalletByUserId db uid := rfl

@[simp] theorem findWalletByUserId_updateTransaction (db : DB) (tid : Nat)
    (f : Transaction → Transaction) (uid : String) :
    findWalletByUserId (updateTransaction db tid f) uid = findWalletByUserId db uid := rfl

@[simp] theorem findWalletById_appendTransaction (db : DB) (t : Transaction)
    (wid : String) :
    findWalletById (appendTransaction db t) wid = findWalletById db wid := rfl

@[simp] theorem findWalletById_updateTransaction (db : DB) (tid : Nat)
    (f : Transaction → Transaction) (wid : String) :
    findWalletById (updateTransaction db tid f) wid = findWalletById db wid := rfl

theorem mem_of_findWalletByUserId (db : DB) (uid : String) (w : Wallet)
    (h : findWalletByUserId db uid = some w) : w ∈ db.wallets :=
  List.mem_of_find?_eq_some h

theorem mem_of_findWalletById (db : DB) (wid : String) (w : Wallet)
    (h : findWalletById db wid = some w) : w ∈ db.wallets :=
  List.mem_of_find?_eq_some h

theorem id_of_findWalletById (db : DB) (wid : String) (w : Wallet)
    (h : findWalletById db wid = some w) : w.id = wid := by
  have := List.find?_some h
  simpa using this

/-- Non-negativity is preserved by a wallet update whose new field
values are non-negative on every wallet of the state. -/
theorem Nonneg_updateWallet (db : DB) (wid : String) (f : Wallet → Wallet)
    (h : Nonneg db)
    (hf : ∀ w ∈ db.wallets, 0 ≤ (f w).balance ∧ 0 ≤ (f w).locked) :
    Nonneg (updateWallet db wid f) := by
  intro w hw
  simp only [updateWallet, List.mem_map] at hw
  obtain ⟨w₀, hw₀, rfl⟩ := hw
  by_cases hid : (w₀.id == wid) = true
  · simpa [hid] using hf w₀ hw₀
  · simp only [Bool.not_eq_true] at hid
    simpa [hid] using h w₀ hw₀

@[simp] theorem Nonneg_appendTransaction (db : DB) (t : Transaction) :
    Nonneg (appendTransaction db t) ↔ Nonneg db := Iff.rfl

@[simp] theorem Nonneg_updateTransaction (db : DB) (tid : Nat)
    (f : Transaction → Transaction) :
    Nonneg (updateTransaction db tid f) ↔ Nonneg db := Iff.rfl

@[simp] theorem updateWallet_users (db : DB) (wid : String) (f : Wallet → Wallet) :
    (updateWallet db wid f).users = db.users := rfl

@[simp] theorem updateWallet_transactions (db : DB) (wid : String) (f : Wallet → Wallet) :
    (updateWallet db wid f).transactions = db.transactions := rfl

@[simp] theorem updateWallet_bonuses (db : DB) (wid : String) (f : Wallet → Wallet) :
    (updateWallet db wid f).bonuses = db.bonuses := rfl

@[simp] theorem updateWallet_nextTxId (db : DB) (wid : String) (f : Wallet → Wallet) :
    (updateWallet db wid f).nextTxId = db.nextTxId := rfl

@[simp] theorem appendTransaction_users (db : DB) (t : Transaction) :
    (appendTransaction db t).users = db.users := rfl

@[simp] theorem appendTransaction_wallets (db : DB) (t : Transaction) :
    (appendTransaction db t).wallets = db.wallets := rfl

@[simp] theorem appendTransaction_bonuses (db : DB) (t : Transaction) :
    (appendTransaction db t).bonuses = db.bonuses := rfl

@[simp] theorem appendTransaction_transactions (db : DB) (t : Transaction) :
    (appendTransaction db t).transactions = db.transactions ++ [t] := rfl

@[simp] theorem appendTransaction_nextTxId (db : DB) (t : Transaction) :
    (appendTransaction db t).nextTxId = db.nextTxId + 1 := rfl

@[simp] theorem updateTransaction_users (db : DB) (tid : Nat) (f : Transaction → Transaction) :
    (updateTransaction db tid f).users = db.users := rfl

@[simp] theorem updateTransaction_wallets (db : DB) (tid : Nat) (f : Transaction → Transaction) :
    (updateTransaction db tid f).wallets = db.wallets := rfl

@[simp] theorem updateTransaction_bonuses (db : DB) (tid : Nat) (f : Transaction → Transaction) :
    (updateTransaction db tid f).bonuses = db.bonuses := rfl

@[simp] theorem updateTransaction_nextTxId (db : DB) (tid : Nat) (f : Transaction → Transaction) :
    (updateTransaction db tid f).nextTxId = db.nextTxId := rfl

@[simp] theorem findUserById_updateWallet (db : DB) (wid : String) (f : Wallet → Wallet)
    (uid : String) :
    findUserById (updateWallet db wid f) uid = findUserById db uid := rfl

@[simp] theorem findUserById_appendTransaction (db : DB) (t : Transaction) (uid : String) :
    findUserById (appendTransaction db t) uid = findUserById db uid := rfl

@[simp] theorem findTransactionById_updateWallet (db : DB) (wid : String)
    (f : Wallet → Wallet) (tid : Nat) :
    findTransactionById (updateWallet db wid f) tid = findTransactionById db tid := rfl

theorem id_of_findTransactionById (db : DB) (tid : Nat) (t : Transaction)
    (h : findTransactionById db tid = some t) : t.id = tid := by
  have := List.find?_some h
  simpa using this

/-! ## Claims -/

/-- Scenario state for claim C4: one wallet with balance 100.50 and
locked 25.00. -/
def scenC4 : DB :=
  { users := [], wallets := [⟨"w1", "u1", 100.50, 25.00⟩],
    transactions := [], bonuses := [], nextTxId := 0 }

/-- C4: `requestWithdrawal` requires `amount ≥ 1` and `balance ≥ amount`
(failing with the minimum-amount error resp. the insufficient-balance
error); on success it moves `amount` from balance to locked and appends
exactly one PENDING WITHDRAWAL transaction for `amount` whose metadata
records the payment method and account details; in particular, from
balance 100.50 and locked 25.00, withdrawing 50 yields balance 50.50
and locked 75.00. -/
theorem C4_requestWithdrawal
    (db : DB) (uid pm ad now : String) (amount : ℚ) (w : Wallet)
    (hw : findWalletByUserId db uid = some w)
    (hmin : 1 ≤ amount) (hbal : amount ≤ w.balance)
    (db₂ : DB) (uid₂ pm₂ ad₂ now₂ : String) (amount₂ : ℚ) (w₂ : Wallet)
    (hw₂ : findWalletByUserId db₂ uid₂ = some w₂) (hbal₂ : w₂.balance < amount₂)
    (db₃ : DB) (uid₃ pm₃ ad₃ now₃ : String) (amount₃ : ℚ) (w₃ : Wallet)
    (hw₃ : findWalletByUserId db₃ uid₃ = some w₃) (hmin₃ : amount₃ < 1)
    (hbal₃ : amount₃ ≤ w₃.balance) :
    ((requestWithdrawal db uid amount pm ad now).map (fun r =>
        findWalletByUserId r.1 uid)
      = .ok (some { w with balance := w.balance - amount, locked := w.locked + amount }))
    ∧ ((requestWithdrawal db uid amount pm ad now).map (fun r => r.1.transactions)
      = .ok (db.transactions ++
          [⟨db.nextTxId, w.id, .WITHDRAWAL, amount, "Withdrawal via " ++ pm, .PENDING,
            [("paymentMethod", pm), ("accountDetails", ad), ("requestedAt", now)]⟩]))
    ∧ requestWithdrawal db₂ uid₂ amount₂ pm₂ ad₂ now₂
      = .error (.badRequest "Insufficient balance for withdrawal")
    ∧ requestWithdrawal db₃ uid₃ amount₃ pm₃ ad₃ now₃
      = .error (.badRequest "Minimum withdrawal amount is $1")
    ∧ ((requestWithdrawal scenC4 "u1" 50 "bank_transfer" "123" "t0").map (fun r =>
        (findWalletByUserId r.1 "u1").map (fun x => (x.balance, x.locked)))
      = .ok (some ((50.50 : ℚ), (75.00 : ℚ)))) := by
  refine ⟨?_, ?_, ?_, ?_, ?_⟩
  · simp only [requestWithdrawal, hw, not_lt.mpr hbal, not_lt.mpr hmin, if_false,
      Except.map, findWalletByUserId_appendTransaction]
    rw [findWalletByUserId_updateWallet db w.id
      (fun x => { id := x.id, userId := x.userId,
                  balance := w.balance - amount, locked := w.locked + amount })
      uid (fun _ => rfl), hw]
    simp
  · simp [requestWithdrawal, hw, not_lt.mpr hbal, not_lt.mpr hmin, Except.map]
  · simp [requestWithdrawal, hw₂, hbal₂]
  · simp [requestWithdrawal, hw₃, not_lt.mpr hbal₃, hmin₃]
  · norm_num [requestWithdrawal, scenC4, findWalletByUserId, updateWallet,
      appendTransaction, Except.map]

/-- Witness for C4 at concrete inputs: a wallet with balance 100 and
locked 0, withdrawing 50; a wallet with balance 10 facing a withdrawal
of 20; and a withdrawal of 1/2 against a balance of 10. -/
theorem C4_requestWithdrawal_witness :
    (findWalletByUserId ⟨[], [⟨"w1", "u1", 100, 0⟩], [], [], 0⟩ "u1" = some ⟨"w1", "u1", 100, 0⟩)
    ∧ ((1 : ℚ) ≤ 50) ∧ ((50 : ℚ) ≤ 100)
    ∧ (findWalletByUserId ⟨[], [⟨"w2", "u2", 10, 0⟩], [], [], 0⟩ "u2" = some ⟨"w2", "u2", 10, 0⟩)
    ∧ ((10 : ℚ) < 20)
    ∧ (((requestWithdrawal ⟨[], [⟨"w1", "u1", 100, 0⟩], [], [], 0⟩ "u1" 50 "pm" "acct" "t").map
        (fun r => findWalletByUserId r.1 "u1"))
      = .ok (some { Wallet.mk "w1" "u1" 100 0 with balance := (100 : ℚ) - 50, locked := (0 : ℚ) + 50 }))
    ∧ requestWithdrawal ⟨[], [⟨"w2", "u2", 10, 0⟩], [], [], 0⟩ "u2" 20 "pm" "acct" "t"
      = .error (.badRequest "Insufficient balance for withdrawal")
    ∧ requestWithdrawal ⟨[], [⟨"w3", "u3", 10, 0⟩], [], [], 0⟩ "u3" (1/2) "pm" "acct" "t"
      = .error (.badRequest "Minimum withdrawal amount is $1") := by
  have h := C4_requestWithdrawal
    ⟨[], [⟨"w1", "u1", 100, 0⟩], [], [], 0⟩ "u1" "pm" "acct" "t" 50 ⟨"w1", "u1", 100, 0⟩
    (by decide) (by decide) (by decide)
    ⟨[], [⟨"w2", "u2", 10, 0⟩], [], [], 0⟩ "u2" "pm" "acct" "t" 20 ⟨"w2", "u2", 10, 0⟩
    (by decide) (by decide)
    ⟨[], [⟨"w3", "u3", 10, 0⟩], [], [], 0⟩ "u3" "pm" "acct" "t" (1/2) ⟨"w3", "u3", 10, 0⟩
    (by decide) (by norm_num) (by norm_num)
  exact ⟨by decide, by decide, by decide, by decide, by decide, h.1, h.2.2.1, h.2.2.2.1⟩

/-- C8: `lockFunds` requires `balance ≥ amount` (else the
insufficient-balance error) and moves exactly `amount` from balance to
locked; `unlockFunds` requires `locked ≥ amount` (else the
insufficient-locked-funds error) and moves exactly `amount` from locked
to balance; both leave the sum `balance + locked` unchanged. -/
theorem C8_lock_unlock
    (db : DB) (uid d : String) (m : Metadata) (amount : ℚ) (w : Wallet)
    (hw : findWalletByUserId db uid = some w) (hbal : amount ≤ w.balance)
    (dbu : DB) (uidu du : String) (mu : Metadata) (amountu : ℚ) (wu : Wallet)
    (hwu : findWalletByUserId dbu uidu = some wu) (hlocked : amountu ≤ wu.locked)
    (db₂ : DB) (uid₂ d₂ : String) (m₂ : Metadata) (amount₂ : ℚ) (w₂ : Wallet)
    (hw₂ : findWalletByUserId db₂ uid₂ = some w₂) (hbal₂ : w₂.balance < amount₂)
    (db₃ : DB) (uid₃ d₃ : String) (m₃ : Metadata) (amount₃ : ℚ) (w₃ : Wallet)
    (hw₃ : findWalletByUserId db₃ uid₃ = some w₃) (hlock₃ : w₃.locked < amount₃) :
    ((lockFunds db uid amount d m).map (fun r => findWalletByUserId r.1 uid)
      = .ok (some { w with balance := w.balance - amount, locked := w.locked + amount }))
    ∧ ((lockFunds db uid amount d m).map (fun r =>
        (findWalletByUserId r.1 uid).map (fun x => x.balance + x.locked))
      = .ok (some (w.balance + w.locked)))
    ∧ ((unlockFunds dbu uidu amountu du mu).map (fun r => findWalletByUserId r.1 uidu)
      = .ok (some { wu with balance := wu.balance + amountu, locked := wu.locked - amountu }))
    ∧ ((unlockFunds dbu uidu amountu du mu).map (fun r =>
        (findWalletByUserId r.1 uidu).map (fun x => x.balance + x.locked))
      = .ok (some (wu.balance + wu.locked)))
    ∧ lockFunds db₂ uid₂ amount₂ d₂ m₂
      = .error (.badRequest "Insufficient balance to lock funds")
    ∧ unlockFunds db₃ uid₃ amount₃ d₃ m₃
      = .error (.badRequest "Insufficient locked funds to unlock") := by
  have hL : ((lockFunds db uid amount d m).map (fun r => findWalletByUserId r.1 uid)
      = .ok (some { w with balance := w.balance - amount, locked := w.locked + amount })) := by
    simp only [lockFunds, hw, not_lt.mpr hbal, if_false, Except.map,
      findWalletByUserId_appendTransaction]
    rw [findWalletByUserId_updateWallet db w.id
      (fun x => { id := x.id, userId := x.userId,
                  balance := w.balance - amount, locked := w.locked + amount })
      uid (fun _ => rfl), hw]
    simp
  have hU : ((unlockFunds dbu uidu amountu du mu).map (fun r => findWalletByUserId r.1 uidu)
      = .ok (some { wu with balance := wu.balance + amountu, locked := wu.locked - amountu })) := by
    simp only [unlockFunds, hwu, not_lt.mpr hlocked, if_false, Except.map,
      findWalletByUserId_appendTransaction]
    rw [findWalletByUserId_updateWallet dbu wu.id
      (fun x => { id := x.id, userId := x.userId,
                  balance := wu.balance + amountu, locked := wu.locked - amountu })
      uidu (fun _ => rfl), hwu]
    simp
  refine ⟨hL, ?_, hU, ?_, ?_, ?_⟩
  · simp only [lockFunds, hw, not_lt.mpr hbal, if_false, Except.map,
      findWalletByUserId_appendTransaction]
    rw [findWalletByUserId_updateWallet db w.id
      (fun x => { id := x.id, userId := x.userId,
                  balance := w.balance - amount, locked := w.locked + amount })
      uid (fun _ => rfl), hw]
    simp
  · simp only [unlockFunds, hwu, not_lt.mpr hlocked, if_false, Except.map,
      findWalletByUserId_appendTransaction]
    rw [findWalletByUserId_updateWallet dbu wu.id
      (fun x => { id := x.id, userId := x.userId,
                  balance := wu.balance + amountu, locked := wu.locked - amountu })
      uidu (fun _ => rfl), hwu]
    simp
  · simp [lockFunds, hw₂, hbal₂]
  · simp [unlockFunds, hw₃, hlock₃]

/-- Witness for C8 at concrete inputs: locking 30 of a balance of 100
(with 5 already locked), unlocking 5 of it, and the two insufficient
cases. -/
theorem C8_lock_unlock_witness :
    (findWalletByUserId ⟨[], [⟨"w1", "u1", 100, 5⟩], [], [], 0⟩ "u1" = some ⟨"w1", "u1", 100, 5⟩)
    ∧ ((30 : ℚ) ≤ 100) ∧ ((5 : ℚ) ≤ 5) ∧ ((100 : ℚ) < 200) ∧ ((5 : ℚ) < 50)
    ∧ ((lockFunds ⟨[], [⟨"w1", "u1", 100, 5⟩], [], [], 0⟩ "u1" 30 "d" []).map
        (fun r => findWalletByUserId r.1 "u1")
      = .ok (some { Wallet.mk "w1" "u1" 100 5 with
                      balance := (100 : ℚ) - 30, locked := (5 : ℚ) + 30 }))
    ∧ ((unlockFunds ⟨[], [⟨"w1", "u1", 100, 5⟩], [], [], 0⟩ "u1" 5 "d" []).map
        (fun r => findWalletByUserId r.1 "u1")
      = .ok (some { Wallet.mk "w1" "u1" 100 5 with
                      balance := (100 : ℚ) + 5, locked := (5 : ℚ) - 5 }))
    ∧ lockFunds ⟨[], [⟨"w1", "u1", 100, 5⟩], [], [], 0⟩ "u1" 200 "d" []
      = .error (.badRequest "Insufficient balance to lock funds")
    ∧ unlockFunds ⟨[], [⟨"w1", "u1", 100, 5⟩], [], [], 0⟩ "u1" 50 "d" []
      = .error (.badRequest "Insufficient locked funds to unlock") := by
  have h := C8_lock_unlock
    ⟨[], [⟨"w1", "u1", 100, 5⟩], [], [], 0⟩ "u1" "d" [] 30 ⟨"w1", "u1", 100, 5⟩
    (by decide) (by decide)
    ⟨[], [⟨"w1", "u1", 100, 5⟩], [], [], 0⟩ "u1" "d" [] 5 ⟨"w1", "u1", 100, 5⟩
    (by decide) (by decide)
    ⟨[], [⟨"w1", "u1", 100, 5⟩], [], [], 0⟩ "u1" "d" [] 200 ⟨"w1", "u1", 100, 5⟩
    (by decide) (by decide)
    ⟨[], [⟨"w1", "u1", 100, 5⟩], [], [], 0⟩ "u1" "d" [] 50 ⟨"w1", "u1", 100, 5⟩
    (by decide) (by decide)
  exact ⟨by decide, by decide, by decide, by decide, by decide,
    h.1, h.2.2.1, h.2.2.2.2.1, h.2.2.2.2.2⟩

/-- Lookup of the processed withdrawal transaction after its
status/metadata update in `processWithdrawal`. -/
theorem findTransactionById_update_self (db : DB) (wid : Nat) (st : TransactionStatus)
    (notes now : String) :
    findTransactionById (updateTransaction db wid (fun t =>
      { t with status := st,
               metadata := t.metadata ++ [("processedAt", now), ("adminNotes", notes)] })) wid
    = (findTransactionById db wid).map (fun t =>
      { t with status := st,
               metadata := t.metadata ++ [("processedAt", now), ("adminNotes", notes)] }) := by
  rw [findTransactionById_updateTransaction db wid (fun t =>
      { t with status := st,
               metadata := t.metadata ++ [("processedAt", now), ("adminNotes", notes)] }) wid
      (fun _ => rfl)]
  cases h : findTransactionById db wid with
  | none => rfl
  | some t0 =>
    have ht0 := id_of_findTransactionById db wid t0 h
    simp [ht0]

/-- C5: `processWithdrawal` is only valid on a PENDING WITHDRAWAL
transaction and fails with the invalid-state errors otherwise (the
aborted unit of work leaves all state unchanged); a FAILED decision
moves the transaction's amount from locked back to balance, a COMPLETED
decision releases it from locked with no balance credit; in both cases
the transaction's status becomes the decision and
`processedAt`/`adminNotes` are appended to its metadata. -/
theorem C5_processWithdrawal
    (db : DB) (wid : Nat) (notes now : String) (st : TransactionStatus)
    (t : Transaction) (w : Wallet)
    (ht : findTransactionById db wid = some t)
    (hty : t.type = .WITHDRAWAL) (hst : t.status = .PENDING)
    (hw : findWalletById db t.walletId = some w)
    (db₂ : DB) (wid₂ : Nat) (notes₂ now₂ : String) (st₂ : TransactionStatus)
    (t₂ : Transaction)
    (ht₂ : findTransactionById db₂ wid₂ = some t₂)
    (hty₂ : t₂.type = .WITHDRAWAL) (hst₂ : t₂.status ≠ .PENDING)
    (db₃ : DB) (wid₃ : Nat) (notes₃ now₃ : String) (st₃ : TransactionStatus)
    (t₃ : Transaction)
    (ht₃ : findTransactionById db₃ wid₃ = some t₃) (hty₃ : t₃.type ≠ .WITHDRAWAL) :
    ((processWithdrawal db wid .FAILED notes now).map (fun r =>
        (findWalletById r.1 t.walletId).map (fun x => (x.balance, x.locked)))
      = .ok (some (w.balance + t.amount, w.locked - t.amount)))
    ∧ ((processWithdrawal db wid .COMPLETED notes now).map (fun r =>
        (findWalletById r.1 t.walletId).map (fun x => (x.balance, x.locked)))
      = .ok (some (w.balance, w.locked - t.amount)))
    ∧ ((processWithdrawal db wid st notes now).map (fun r => r.2)
      = .ok { t with status := st,
                     metadata := t.metadata ++ [("processedAt", now), ("adminNotes", notes)] })
    ∧ ((processWithdrawal db wid st notes now).map (fun r => findTransactionById r.1 wid)
      = .ok (some { t with
                    status := st,
                    metadata := t.metadata ++ [("processedAt", now), ("adminNotes", notes)] }))
    ∧ processWithdrawal db₂ wid₂ st₂ notes₂ now₂
      = .error (.badRequest "Withdrawal already processed")
    ∧ processWithdrawal db₃ wid₃ st₃ notes₃ now₃
      = .error (.badRequest "Transaction is not a withdrawal") := by
  have hwid : w.id = t.walletId := id_of_findWalletById db t.walletId w hw
  have htid : t.id = wid := id_of_findTransactionById db wid t ht
  refine ⟨?_, ?_, ?_, ?_, ?_, ?_⟩
  · simp only [processWithdrawal, ht, hty, hst, ne_eq, not_true_eq_false, if_false,
      reduceCtorEq, reduceIte, Except.map, findWalletById_updateTransaction, hw]
    rw [findWalletById_updateWallet _ t.walletId
      (fun x => { id := x.id, userId := x.userId,
                  balance := w.balance + t.amount, locked := w.locked - t.amount })
      t.walletId (fun _ => rfl)]
    simp [findWalletById_updateTransaction, hw, hwid]
  · simp only [processWithdrawal, ht, hty, hst, ne_eq, not_true_eq_false, if_false,
      reduceCtorEq, reduceIte, Except.map, findWalletById_updateTransaction, hw]
    rw [findWalletById_updateWallet _ t.walletId
      (fun x => { id := x.id, userId := x.userId,
                  balance := x.balance, locked := w.locked - t.amount })
      t.walletId (fun _ => rfl)]
    simp [findWalletById_updateTransaction, hw, hwid]
  · simp [processWithdrawal, ht, hty, hst, Except.map]
  · simp only [processWithdrawal, ht, hty, hst, ne_eq, not_true_eq_false, if_false,
      reduceCtorEq, reduceIte, Except.map]
    by_cases hF : st = TransactionStatus.FAILED
    · subst hF
      simp only [reduceIte, reduceCtorEq, if_false, findWalletById_updateTransaction, hw,
        findTransactionById_updateWallet]
      rw [findTransactionById_update_self, ht]
      simp [htid, hty]
    · by_cases hC : st = TransactionStatus.COMPLETED
      · subst hC
        simp only [reduceIte, reduceCtorEq, if_false, findWalletById_updateTransaction, hw,
          findTransactionById_updateWallet]
        rw [findTransactionById_update_self, ht]
        simp [htid, hty]
      · simp only [hF, hC, if_false]
        rw [findTransactionById_update_self, ht]
        simp [htid, hty]
  · simp [processWithdrawal, ht₂, hty₂, hst₂]
  · simp [processWithdrawal, ht₃, hty₃]

/-- Witness for C5 at concrete inputs: a PENDING WITHDRAWAL transaction
of amount 40 over a wallet with balance 60 and locked 40; an already
COMPLETED withdrawal; and a TASK_REWARD transaction. -/
theorem C5_processWithdrawal_witness :
    (findTransactionById ⟨[], [⟨"w1", "u1", 60, 40⟩],
        [⟨7, "w1", .WITHDRAWAL, 40, "d", .PENDING, []⟩], [], 8⟩ 7
      = some ⟨7, "w1", .WITHDRAWAL, 40, "d", .PENDING, []⟩)
    ∧ ((processWithdrawal ⟨[], [⟨"w1", "u1", 60, 40⟩],
        [⟨7, "w1", .WITHDRAWAL, 40, "d", .PENDING, []⟩], [], 8⟩ 7 .FAILED "no" "t").map
        (fun r => (findWalletById r.1 "w1").map (fun x => (x.balance, x.locked)))
      = .ok (some ((60 : ℚ) + 40, (40 : ℚ) - 40)))
    ∧ ((processWithdrawal ⟨[], [⟨"w1", "u1", 60, 40⟩],
        [⟨7, "w1", .WITHDRAWAL, 40, "d", .PENDING, []⟩], [], 8⟩ 7 .COMPLETED "ok" "t").map
        (fun r => (findWalletById r.1 "w1").map (fun x => (x.balance, x.locked)))
      = .ok (some ((60 : ℚ), (40 : ℚ) - 40)))
    ∧ processWithdrawal ⟨[], [⟨"w2", "u2", 0, 0⟩],
        [⟨3, "w2", .WITHDRAWAL, 5, "d", .COMPLETED, []⟩], [], 4⟩ 3 .COMPLETED "n" "t"
      = .error (.badRequest "Withdrawal already processed")
    ∧ processWithdrawal ⟨[], [⟨"w3", "u3", 0, 0⟩],
        [⟨4, "w3", .TASK_REWARD, 5, "d", .PENDING, []⟩], [], 5⟩ 4 .COMPLETED "n" "t"
      = .error (.badRequest "Transaction is not a withdrawal") := by
  have h := C5_processWithdrawal
    ⟨[], [⟨"w1", "u1", 60, 40⟩], [⟨7, "w1", .WITHDRAWAL, 40, "d", .PENDING, []⟩], [], 8⟩
    7 "no" "t" .FAILED ⟨7, "w1", .WITHDRAWAL, 40, "d", .PENDING, []⟩ ⟨"w1", "u1", 60, 40⟩
    (by decide) (by decide) (by decide) (by decide)
    ⟨[], [⟨"w2", "u2", 0, 0⟩], [⟨3, "w2", .WITHDRAWAL, 5, "d", .COMPLETED, []⟩], [], 4⟩
    3 "n" "t" .COMPLETED ⟨3, "w2", .WITHDRAWAL, 5, "d", .COMPLETED, []⟩
    (by decide) (by decide) (by decide)
    ⟨[], [⟨"w3", "u3", 0, 0⟩], [⟨4, "w3", .TASK_REWARD, 5, "d", .PENDING, []⟩], [], 5⟩
    4 "n" "t" .COMPLETED ⟨4, "w3", .TASK_REWARD, 5, "d", .PENDING, []⟩
    (by decide) (by decide)
  have h2 := C5_processWithdrawal
    ⟨[], [⟨"w1", "u1", 60, 40⟩], [⟨7, "w1", .WITHDRAWAL, 40, "d", .PENDING, []⟩], [], 8⟩
    7 "ok" "t" .FAILED ⟨7, "w1", .WITHDRAWAL, 40, "d", .PENDING, []⟩ ⟨"w1", "u1", 60, 40⟩
    (by decide) (by decide) (by decide) (by decide)
    ⟨[], [⟨"w2", "u2", 0, 0⟩], [⟨3, "w2", .WITHDRAWAL, 5, "d", .COMPLETED, []⟩], [], 4⟩
    3 "n" "t" .COMPLETED ⟨3, "w2", .WITHDRAWAL, 5, "d", .COMPLETED, []⟩
    (by decide) (by decide) (by decide)
    ⟨[], [⟨"w3", "u3", 0, 0⟩], [⟨4, "w3", .TASK_REWARD, 5, "d", .PENDING, []⟩], [], 5⟩
    4 "n" "t" .COMPLETED ⟨4, "w3", .TASK_REWARD, 5, "d", .PENDING, []⟩
    (by decide) (by decide)
  exact ⟨by decide, h.1, h2.2.1, h.2.2.2.2.1, h.2.2.2.2.2⟩

/-- The explicit result of a successful `transferFunds` (used by the
transfer claims). -/
theorem transferFunds_ok_eq
    (db : DB) (sid email : String) (amount : ℚ) (desc : Option String)
    (sw rw : Wallet) (ru : User)
    (hsw : findWalletByUserId db sid = some sw) (hbal : amount ≤ sw.balance)
    (hru : findUserByEmail db email = some ru)
    (hrw : findWalletByUserId db ru.id = some rw)
    (hne' : (ru.id == sid) = false) :
    transferFunds db sid email amount desc =
      .ok (appendTransaction (appendTransaction
            (updateWallet (updateWallet db sw.id
                (fun x => { id := x.id, userId := x.userId,
                            balance := sw.balance - amount, locked := x.locked }))
              rw.id
              (fun x => { id := x.id, userId := x.userId,
                          balance := rw.balance + amount, locked := x.locked }))
            ⟨db.nextTxId, sw.id, .WITHDRAWAL, amount, desc.getD ("Transfer to " ++ email),
              .COMPLETED,
              [("transferType", "peer_to_peer"), ("recipientEmail", email),
               ("recipientName", ru.firstName ++ " " ++ ru.lastName)]⟩)
          ⟨db.nextTxId + 1, rw.id, .TASK_REWARD, amount, "Transfer from user", .COMPLETED,
            [("transferType", "peer_to_peer"), ("senderId", sid),
             ("senderName", ru.firstName ++ " " ++ ru.lastName)]⟩,
          ⟨db.nextTxId, sw.id, .WITHDRAWAL, amount, desc.getD ("Transfer to " ++ email),
            .COMPLETED,
            [("transferType", "peer_to_peer"), ("recipientEmail", email),
             ("recipientName", ru.firstName ++ " " ++ ru.lastName)]⟩) := by
  simp [transferFunds, hsw, not_lt.mpr hbal, hru, hrw, hne']

/-- C3: a successful `transferFunds` from a sender with sufficient
balance to a distinct recipient resolved by email decreases the
sender's balance by exactly `amount`, increases the recipient's balance
by exactly `amount`, and appends exactly two transaction records, one
per wallet; when the recipient email resolves to no user it fails with
the recipient-not-found error and (the unit of work having aborted)
leaves balances unchanged with zero transaction records created. -/
theorem C3_transferFunds
    (db : DB) (sid email : String) (amount : ℚ) (desc : Option String)
    (sw rw : Wallet) (ru : User)
    (hsw : findWalletByUserId db sid = some sw) (hbal : amount ≤ sw.balance)
    (hru : findUserByEmail db email = some ru)
    (hrw : findWalletByUserId db ru.id = some rw)
    (hne : ru.id ≠ sid) (hwid : sw.id ≠ rw.id)
    (db₂ : DB) (sid₂ email₂ : String) (amount₂ : ℚ) (desc₂ : Option String) (sw₂ : Wallet)
    (hsw₂ : findWalletByUserId db₂ sid₂ = some sw₂) (hbal₂ : amount₂ ≤ sw₂.balance)
    (hnone : findUserByEmail db₂ email₂ = none) :
    ((transferFunds db sid email amount desc).map (fun r => findWalletByUserId r.1 sid)
      = .ok (some { sw with balance := sw.balance - amount }))
    ∧ ((transferFunds db sid email amount desc).map (fun r => findWalletByUserId r.1 ru.id)
      = .ok (some { rw with balance := rw.balance + amount }))
    ∧ ((transferFunds db sid email amount desc).map (fun r => r.1.transactions)
      = .ok (db.transactions ++
          [⟨db.nextTxId, sw.id, .WITHDRAWAL, amount, desc.getD ("Transfer to " ++ email),
            .COMPLETED,
            [("transferType", "peer_to_peer"), ("recipientEmail", email),
             ("recipientName", ru.firstName ++ " " ++ ru.lastName)]⟩,
           ⟨db.nextTxId + 1, rw.id, .TASK_REWARD, amount, "Transfer from user", .COMPLETED,
            [("transferType", "peer_to_peer"), ("senderId", sid),
             ("senderName", ru.firstName ++ " " ++ ru.lastName)]⟩]))
    ∧ transferFunds db₂ sid₂ email₂ amount₂ desc₂
      = .error (.notFound "Recipient not found") := by
  have hne' : (ru.id == sid) = false := beq_eq_false_iff_ne.mpr hne
  have hids : (sw.id == rw.id) = false := beq_eq_false_iff_ne.mpr hwid
  have hrun := transferFunds_ok_eq db sid email amount desc sw rw ru hsw hbal hru hrw hne'
  refine ⟨?_, ?_, ?_, ?_⟩
  · rw [hrun]
    simp only [Except.map, findWalletByUserId_appendTransaction]
    rw [findWalletByUserId_updateWallet _ rw.id
      (fun x => { id := x.id, userId := x.userId,
                  balance := rw.balance + amount, locked := x.locked })
      sid (fun _ => rfl)]
    rw [findWalletByUserId_updateWallet db sw.id
      (fun x => { id := x.id, userId := x.userId,
                  balance := sw.balance - amount, locked := x.locked })
      sid (fun _ => rfl), hsw]
    simp [hids]
    intro h
    exact absurd h hwid
  · rw [hrun]
    simp only [Except.map, findWalletByUserId_appendTransaction]
    rw [findWalletByUserId_updateWallet _ rw.id
      (fun x => { id := x.id, userId := x.userId,
                  balance := rw.balance + amount, locked := x.locked })
      ru.id (fun _ => rfl)]
    rw [findWalletByUserId_updateWallet db sw.id
      (fun x => { id := x.id, userId := x.userId,
                  balance := sw.balance - amount, locked := x.locked })
      ru.id (fun _ => rfl), hrw]
    simp [Ne.symm hwid]
  · rw [hrun]
    simp [Except.map, List.append_assoc]
  · simp [transferFunds, hsw₂, not_lt.mpr hbal₂, hnone]

/-- Witness for C3 at concrete inputs: alice (balance 100) transfers 40
to bob (balance 5) resolved by email, and a transfer to an unknown
email fails. -/
theorem C3_transferFunds_witness :
    (findWalletByUserId
        ⟨[⟨"s", "a@x", "Alice", "A", none⟩, ⟨"r", "b@x", "Bob", "B", none⟩],
         [⟨"ws", "s", 100, 0⟩, ⟨"wr", "r", 5, 0⟩], [], [], 0⟩ "s" = some ⟨"ws", "s", 100, 0⟩)
    ∧ ((40 : ℚ) ≤ 100)
    ∧ ((transferFunds
        ⟨[⟨"s", "a@x", "Alice", "A", none⟩, ⟨"r", "b@x", "Bob", "B", none⟩],
         [⟨"ws", "s", 100, 0⟩, ⟨"wr", "r", 5, 0⟩], [], [], 0⟩ "s" "b@x" 40 none).map
        (fun r => findWalletByUserId r.1 "s")
      = .ok (some { Wallet.mk "ws" "s" 100 0 with balance := (100 : ℚ) - 40 }))
    ∧ ((transferFunds
        ⟨[⟨"s", "a@x", "Alice", "A", none⟩, ⟨"r", "b@x", "Bob", "B", none⟩],
         [⟨"ws", "s", 100, 0⟩, ⟨"wr", "r", 5, 0⟩], [], [], 0⟩ "s" "b@x" 40 none).map
        (fun r => findWalletByUserId r.1 "r")
      = .ok (some { Wallet.mk "wr" "r" 5 0 with balance := (5 : ℚ) + 40 }))
    ∧ transferFunds
        ⟨[⟨"s", "a@x", "Alice", "A", none⟩, ⟨"r", "b@x", "Bob", "B", none⟩],
         [⟨"ws", "s", 100, 0⟩, ⟨"wr", "r", 5, 0⟩], [], [], 0⟩ "s" "nobody@x" 40 none
      = .error (.notFound "Recipient not found") := by
  have h := C3_transferFunds
    ⟨[⟨"s", "a@x", "Alice", "A", none⟩, ⟨"r", "b@x", "Bob", "B", none⟩],
     [⟨"ws", "s", 100, 0⟩, ⟨"wr", "r", 5, 0⟩], [], [], 0⟩ "s" "b@x" 40 none
    ⟨"ws", "s", 100, 0⟩ ⟨"wr", "r", 5, 0⟩ ⟨"r", "b@x", "Bob", "B", none⟩
    (by decide) (by decide) (by decide) (by decide) (by decide) (by decide)
    ⟨[⟨"s", "a@x", "Alice", "A", none⟩, ⟨"r", "b@x", "Bob", "B", none⟩],
     [⟨"ws", "s", 100, 0⟩, ⟨"wr", "r", 5, 0⟩], [], [], 0⟩ "s" "nobody@x" 40 none
    ⟨"ws", "s", 100, 0⟩
    (by decide) (by decide) (by decide)
  exact ⟨by decide, by decide, h.1, h.2.1, h.2.2.2⟩

/-- C10: `transferFunds` records the sender's debit as a COMPLETED
WITHDRAWAL transaction and the recipient's credit as a COMPLETED
TASK_REWARD transaction; consequently the transferred amount is counted
into the recipient's `totalEarnings` aggregate and the sender's
`totalWithdrawals` aggregate of `getWalletStats`, indistinguishably
from a real task reward or withdrawal. -/
theorem C10_transfer_transaction_typing
    (db : DB) (sid email : String) (amount : ℚ) (desc : Option String)
    (sw rw : Wallet) (ru : User)
    (hsw : findWalletByUserId db sid = some sw) (hbal : amount ≤ sw.balance)
    (hru : findUserByEmail db email = some ru)
    (hrw : findWalletByUserId db ru.id = some rw)
    (hne : ru.id ≠ sid) :
    ((transferFunds db sid email amount desc).map (fun r => (r.2.type, r.2.status))
      = .ok (TransactionType.WITHDRAWAL, TransactionStatus.COMPLETED))
    ∧ ((transferFunds db sid email amount desc).map (fun r =>
        r.1.transactions.map (fun t => (t.walletId, t.type, t.status)))
      = .ok ((db.transactions.map (fun t => (t.walletId, t.type, t.status))) ++
          [(sw.id, TransactionType.WITHDRAWAL, TransactionStatus.COMPLETED),
           (rw.id, TransactionType.TASK_REWARD, TransactionStatus.COMPLETED)]))
    ∧ ((transferFunds db sid email amount desc).map (fun r => totalEarnings r.1 rw.id)
      = .ok (totalEarnings db rw.id + amount))
    ∧ ((transferFunds db sid email amount desc).map (fun r => totalWithdrawals r.1 sw.id)
      = .ok (totalWithdrawals db sw.id + amount)) := by
  have hne' : (ru.id == sid) = false := beq_eq_false_iff_ne.mpr hne
  have hrun := transferFunds_ok_eq db sid email amount desc sw rw ru hsw hbal hru hrw hne'
  refine ⟨?_, ?_, ?_, ?_⟩
  · rw [hrun]
    simp [Except.map]
  · rw [hrun]
    simp [Except.map, List.append_assoc]
  · rw [hrun]
    simp only [Except.map, totalEarnings, appendTransaction_transactions,
      updateWallet_transactions, List.append_assoc]
    rw [List.filter_append, List.map_append, List.sum_append]
    simp [earningTypes]
  · rw [hrun]
    simp only [Except.map, totalWithdrawals, appendTransaction_transactions,
      updateWallet_transactions, List.append_assoc]
    rw [List.filter_append, List.map_append, List.sum_append]
    simp

/-- Witness for C10 at the same concrete transfer as the C3 witness. -/
theorem C10_transfer_transaction_typing_witness :
    (findWalletByUserId
        ⟨[⟨"s", "a@x", "Alice", "A", none⟩, ⟨"r", "b@x", "Bob", "B", none⟩],
         [⟨"ws", "s", 100, 0⟩, ⟨"wr", "r", 5, 0⟩], [], [], 0⟩ "s" = some ⟨"ws", "s", 100, 0⟩)
    ∧ ((transferFunds
        ⟨[⟨"s", "a@x", "Alice", "A", none⟩, ⟨"r", "b@x", "Bob", "B", none⟩],
         [⟨"ws", "s", 100, 0⟩, ⟨"wr", "r", 5, 0⟩], [], [], 0⟩ "s" "b@x" 40 none).map
        (fun r => (r.2.type, r.2.status))
      = .ok (TransactionType.WITHDRAWAL, TransactionStatus.COMPLETED))
    ∧ ((transferFunds
        ⟨[⟨"s", "a@x", "Alice", "A", none⟩, ⟨"r", "b@x", "Bob", "B", none⟩],
         [⟨"ws", "s", 100, 0⟩, ⟨"wr", "r", 5, 0⟩], [], [], 0⟩ "s" "b@x" 40 none).map
        (fun r => totalEarnings r.1 "wr")
      = .ok (totalEarnings
          ⟨[⟨"s", "a@x", "Alice", "A", none⟩, ⟨"r", "b@x", "Bob", "B", none⟩],
           [⟨"ws", "s", 100, 0⟩, ⟨"wr", "r", 5, 0⟩], [], [], 0⟩ "wr" + 40))
    ∧ ((transferFunds
        ⟨[⟨"s", "a@x", "Alice", "A", none⟩, ⟨"r", "b@x", "Bob", "B", none⟩],
         [⟨"ws", "s", 100, 0⟩, ⟨"wr", "r", 5, 0⟩], [], [], 0⟩ "s" "b@x" 40 none).map
        (fun r => totalWithdrawals r.1 "ws")
      = .ok (totalWithdrawals
          ⟨[⟨"s", "a@x", "Alice", "A", none⟩, ⟨"r", "b@x", "Bob", "B", none⟩],
           [⟨"ws", "s", 100, 0⟩, ⟨"wr", "r", 5, 0⟩], [], [], 0⟩ "ws" + 40)) := by
  have h := C10_transfer_transaction_typing
    ⟨[⟨"s", "a@x", "Alice", "A", none⟩, ⟨"r", "b@x", "Bob", "B", none⟩],
     [⟨"ws", "s", 100, 0⟩, ⟨"wr", "r", 5, 0⟩], [], [], 0⟩ "s" "b@x" 40 none
    ⟨"ws", "s", 100, 0⟩ ⟨"wr", "r", 5, 0⟩ ⟨"r", "b@x", "Bob", "B", none⟩
    (by decide) (by decide) (by decide) (by decide) (by decide)
  exact ⟨by decide, h.1, h.2.2.1, h.2.2.2⟩

/-- C2 counterexample: `addFunds` performs no validation of its amount,
so calling it with a negative amount on a wallet in a valid state
succeeds (it does not fail with an insufficient-funds error) and drives
the balance negative, refuting the claimed non-negativity guarantee as
stated over every ledger operation. -/
theorem C2_counterexample :
    ((addFunds ⟨[], [⟨"w1", "u1", 0, 0⟩], [], [], 0⟩ "u1" (-50) .TASK_REWARD "credit" []).map
        (fun r => (findWalletByUserId r.1 "u1").map Wallet.balance)
      = .ok (some ((0 : ℚ) + (-50))))
    ∧ ((0 : ℚ) + (-50) < 0)
    ∧ Nonneg ⟨[], [⟨"w1", "u1", 0, 0⟩], [], [], 0⟩ := by
  refine ⟨?_, by norm_num, by decide⟩
  simp [addFunds, findWalletByUserId, updateWallet, appendTransaction, Except.map]

/-- C2 (amended): under a state where every wallet has non-negative
balance and locked funds, a ledger operation with a non-negative
amount — and, for `processWithdrawal`, a wallet whose locked funds
cover the processed transaction's amount, a condition the code does not
guard — preserves non-negativity whenever it succeeds (a failing
operation aborts its unit of work and leaves the state unchanged). -/
theorem C2_nonneg_amended (db db' : DB) (op : LedgerOp)
    (hnn : Nonneg db) (hok : OpOk db op) (hrun : runOp db op = .ok db') :
    Nonneg db' := by
  cases op with
  | add u a ty d m =>
    simp only [runOp] at hrun
    simp only [OpOk] at hok
    cases hf : findWalletByUserId db u with
    | none => simp [addFunds, hf, Except.map] at hrun
    | some w =>
      simp only [addFunds, hf, Except.map, Except.ok.injEq] at hrun
      subst hrun
      refine (Nonneg_appendTransaction _ _).mpr ?_
      refine Nonneg_updateWallet _ _ _ hnn ?_
      intro x hx
      have hw := hnn w (mem_of_findWalletByUserId db u w hf)
      exact ⟨add_nonneg hw.1 hok, (hnn x hx).2⟩
  | lock u a d m =>
    simp only [runOp] at hrun
    simp only [OpOk] at hok
    cases hf : findWalletByUserId db u with
    | none => simp [lockFunds, hf, Except.map] at hrun
    | some w =>
      by_cases hlt : w.balance < a
      · simp [lockFunds, hf, hlt, Except.map] at hrun
      · simp only [lockFunds, hf, hlt, if_false, Except.map, Except.ok.injEq] at hrun
        subst hrun
        refine (Nonneg_appendTransaction _ _).mpr ?_
        refine Nonneg_updateWallet _ _ _ hnn ?_
        intro x hx
        have hw := hnn w (mem_of_findWalletByUserId db u w hf)
        exact ⟨sub_nonneg.mpr (not_lt.mp hlt), add_nonneg hw.2 hok⟩
  | unlock u a d m =>
    simp only [runOp] at hrun
    simp only [OpOk] at hok
    cases hf : findWalletByUserId db u with
    | none => simp [unlockFunds, hf, Except.map] at hrun
    | some w =>
      by_cases hlt : w.locked < a
      · simp [unlockFunds, hf, hlt, Except.map] at hrun
      · simp only [unlockFunds, hf, hlt, if_false, Except.map, Except.ok.injEq] at hrun
        subst hrun
        refine (Nonneg_appendTransaction _ _).mpr ?_
        refine Nonneg_updateWallet _ _ _ hnn ?_
        intro x hx
        have hw := hnn w (mem_of_findWalletByUserId db u w hf)
        exact ⟨add_nonneg hw.1 hok, sub_nonneg.mpr (not_lt.mp hlt)⟩
  | withdraw u a pm ad now =>
    simp only [runOp] at hrun
    simp only [OpOk] at hok
    cases hf : findWalletByUserId db u with
    | none => simp [requestWithdrawal, hf, Except.map] at hrun
    | some w =>
      by_cases hlt : w.balance < a
      · simp [requestWithdrawal, hf, hlt, Except.map] at hrun
      · by_cases hmin : a < 1
        · simp [requestWithdrawal, hf, hlt, hmin, Except.map] at hrun
        · simp only [requestWithdrawal, hf, hlt, hmin, if_false, Except.map,
            Except.ok.injEq] at hrun
          subst hrun
          refine (Nonneg_appendTransaction _ _).mpr ?_
          refine Nonneg_updateWallet _ _ _ hnn ?_
          intro x hx
          have hw := hnn w (mem_of_findWalletByUserId db u w hf)
          exact ⟨sub_nonneg.mpr (not_lt.mp hlt), add_nonneg hw.2 hok⟩
  | transfer u e a d =>
    simp only [runOp] at hrun
    simp only [OpOk] at hok
    cases hf : findWalletByUserId db u with
    | none => simp [transferFunds, hf, Except.map] at hrun
    | some sw =>
      by_cases hlt : sw.balance < a
      · simp [transferFunds, hf, hlt, Except.map] at hrun
      · cases hru : findUserByEmail db e with
        | none => simp [transferFunds, hf, hlt, hru, Except.map] at hrun
        | some ru =>
          cases hrw : findWalletByUserId db ru.id with
          | none => simp [transferFunds, hf, hlt, hru, hrw, Except.map] at hrun
          | some rw =>
            by_cases hself : (ru.id == u) = true
            · simp [transferFunds, hf, hlt, hru, hrw, hself, Except.map] at hrun
            · simp only [Bool.not_eq_true] at hself
              simp only [transferFunds, hf, hlt, hru, hrw, hself, Bool.false_eq_true,
                if_false, Except.map, Except.ok.injEq] at hrun
              subst hrun
              refine (Nonneg_appendTransaction _ _).mpr ?_
              refine (Nonneg_appendTransaction _ _).mpr ?_
              have hsw := hnn sw (mem_of_findWalletByUserId db u sw hf)
              have hrwn := hnn rw (mem_of_findWalletByUserId db ru.id rw hrw)
              have h1 : Nonneg (updateWallet db sw.id
                  (fun x => { id := x.id, userId := x.userId,
                              balance := sw.balance - a, locked := x.locked })) := by
                refine Nonneg_updateWallet _ _ _ hnn ?_
                intro x hx
                exact ⟨sub_nonneg.mpr (not_lt.mp hlt), (hnn x hx).2⟩
              refine Nonneg_updateWallet _ _ _ h1 ?_
              intro x hx
              exact ⟨add_nonneg hrwn.1 hok, (h1 x hx).2⟩
  | processW wid st notes now =>
    simp only [runOp] at hrun
    simp only [OpOk] at hok
    cases ht : findTransactionById db wid with
    | none => simp [processWithdrawal, ht, Except.map] at hrun
    | some t =>
      by_cases hty : t.type = TransactionType.WITHDRAWAL
      · by_cases hst : t.status = TransactionStatus.PENDING
        · have hmem := List.mem_of_find?_eq_some ht
          have htid : t.id = wid := id_of_findTransactionById db wid t ht
          obtain ⟨hamt, hcov⟩ := hok t hmem htid
          simp only [processWithdrawal, ht, hty, hst, ne_eq, not_true_eq_false, if_false,
            Except.map, Except.ok.injEq] at hrun
          have hnn1 : Nonneg (updateTransaction db wid (fun x =>
              { x with status := st,
                       metadata := x.metadata
                         ++ [("processedAt", now), ("adminNotes", notes)] })) :=
            (Nonneg_updateTransaction _ _ _).mpr hnn
          cases st with
          | PENDING =>
            simp only [reduceCtorEq, if_false] at hrun
            subst hrun
            exact hnn1
          | FAILED =>
            simp only [reduceCtorEq, reduceIte, findWalletById_updateTransaction] at hrun
            cases hwf : findWalletById db t.walletId with
            | none =>
              rw [hwf] at hrun
              subst hrun
              exact hnn1
            | some w =>
              rw [hwf] at hrun
              subst hrun
              have hw := hnn w (mem_of_findWalletById db t.walletId w hwf)
              have hcw := hcov w (mem_of_findWalletById db t.walletId w hwf)
                (id_of_findWalletById db t.walletId w hwf)
              refine Nonneg_updateWallet _ _ _ hnn1 ?_
              intro x hx
              exact ⟨add_nonneg hw.1 hamt, sub_nonneg.mpr hcw⟩
          | COMPLETED =>
            simp only [reduceCtorEq, reduceIte, findWalletById_updateTransaction] at hrun
            cases hwf : findWalletById db t.walletId with
            | none =>
              rw [hwf] at hrun
              subst hrun
              exact hnn1
            | some w =>
              rw [hwf] at hrun
              subst hrun
              have hcw := hcov w (mem_of_findWalletById db t.walletId w hwf)
                (id_of_findWalletById db t.walletId w hwf)
              refine Nonneg_updateWallet _ _ _ hnn1 ?_
              intro x hx
              exact ⟨(hnn1 x hx).1, sub_nonneg.mpr hcw⟩
        · simp [processWithdrawal, ht, hty, hst, Except.map] at hrun
      · simp [processWithdrawal, ht, hty, Except.map] at hrun

/-- Witness for C2 (amended): an admin decision on a PENDING WITHDRAWAL
transaction of amount 5 over a wallet with balance 3 and locked 7. -/
theorem C2_nonneg_amended_witness :
    Nonneg ⟨[], [⟨"w1", "u1", 3, 7⟩],
      [⟨1, "w1", .WITHDRAWAL, 5, "d", .PENDING, []⟩], [], 2⟩
    ∧ OpOk ⟨[], [⟨"w1", "u1", 3, 7⟩],
        [⟨1, "w1", .WITHDRAWAL, 5, "d", .PENDING, []⟩], [], 2⟩
        (.processW 1 .PENDING "n" "t")
    ∧ runOp ⟨[], [⟨"w1", "u1", 3, 7⟩],
        [⟨1, "w1", .WITHDRAWAL, 5, "d", .PENDING, []⟩], [], 2⟩
        (.processW 1 .PENDING "n" "t")
      = .ok ⟨[], [⟨"w1", "u1", 3, 7⟩],
        [⟨1, "w1", .WITHDRAWAL, 5, "d", .PENDING,
          [("processedAt", "t"), ("adminNotes", "n")]⟩], [], 2⟩
    ∧ Nonneg ⟨[], [⟨"w1", "u1", 3, 7⟩],
        [⟨1, "w1", .WITHDRAWAL, 5, "d", .PENDING,
          [("processedAt", "t"), ("adminNotes", "n")]⟩], [], 2⟩ := by
  have hok : OpOk ⟨[], [⟨"w1", "u1", 3, 7⟩],
      [⟨1, "w1", .WITHDRAWAL, 5, "d", .PENDING, []⟩], [], 2⟩
      (.processW 1 .PENDING "n" "t") := by
    show ∀ t ∈ ([⟨1, "w1", .WITHDRAWAL, 5, "d", .PENDING, []⟩] : List Transaction),
      t.id = 1 → 0 ≤ t.amount ∧
        ∀ w ∈ ([⟨"w1", "u1", 3, 7⟩] : List Wallet), w.id = t.walletId → t.amount ≤ w.locked
    decide
  have hrun : runOp ⟨[], [⟨"w1", "u1", 3, 7⟩],
      [⟨1, "w1", .WITHDRAWAL, 5, "d", .PENDING, []⟩], [], 2⟩
      (.processW 1 .PENDING "n" "t")
      = .ok ⟨[], [⟨"w1", "u1", 3, 7⟩],
        [⟨1, "w1", .WITHDRAWAL, 5, "d", .PENDING,
          [("processedAt", "t"), ("adminNotes", "n")]⟩], [], 2⟩ := by decide
  exact ⟨by decide, hok, hrun,
    C2_nonneg_amended
      ⟨[], [⟨"w1", "u1", 3, 7⟩], [⟨1, "w1", .WITHDRAWAL, 5, "d", .PENDING, []⟩], [], 2⟩
      ⟨[], [⟨"w1", "u1", 3, 7⟩],
        [⟨1, "w1", .WITHDRAWAL, 5, "d", .PENDING,
          [("processedAt", "t"), ("adminNotes", "n")]⟩], [], 2⟩
      (.processW 1 .PENDING "n" "t") (by decide) hok hrun⟩

/-! ## Referral-engine helper lemmas -/

/-- The explicit result of a successful `addFunds`. -/
theorem addFunds_ok_eq (db : DB) (u : String) (a : ℚ) (ty : TransactionType)
    (d : String) (m : Metadata) (w : Wallet)
    (hw : findWalletByUserId db u = some w) :
    addFunds db u a ty d m =
      .ok (appendTransaction
            (updateWallet db w.id (fun x => { x with balance := w.balance + a }))
            ⟨db.nextTxId, w.id, ty, a, d, .COMPLETED, m⟩,
          ⟨db.nextTxId, w.id, ty, a, d, .COMPLETED, m⟩) := by
  simp [addFunds, hw]

/-- `addFunds` fails exactly when the wallet is missing. -/
theorem addFunds_none_eq (db : DB) (u : String) (a : ℚ) (ty : TransactionType)
    (d : String) (m : Metadata) (hw : findWalletByUserId db u = none) :
    addFunds db u a ty d m = .error (.notFound "Wallet not found") := by
  simp [addFunds, hw]

/-- A successful `addFunds` leaves users and bonus records unchanged. -/
theorem addFunds_ok_inv (db db' : DB) (u : String) (a : ℚ) (ty : TransactionType)
    (d : String) (m : Metadata) (tx : Transaction)
    (h : addFunds db u a ty d m = .ok (db', tx)) :
    db'.users = db.users ∧ db'.bonuses = db.bonuses := by
  cases hw : findWalletByUserId db u with
  | none => simp [addFunds, hw] at h
  | some w =>
    rw [addFunds_ok_eq db u a ty d m w hw] at h
    simp only [Except.ok.injEq, Prod.mk.injEq] at h
    obtain ⟨h1, h2⟩ := h
    subst h1
    exact ⟨rfl, rfl⟩

/-- The explicit result of a successful `createReferralBonus`. -/
theorem createReferralBonus_ok_eq (db : DB) (b : ReferralBonus)
    (hno : (db.bonuses.any (fun x => x.referrerId == b.referrerId
      && x.referredUserId == b.referredUserId && x.type == b.type)) = false) :
    createReferralBonus db b = .ok { db with bonuses := db.bonuses ++ [b] } := by
  simp [createReferralBonus, hno]

/-- Inversion for a successful `createReferralBonus`: the result is the
input state with the record appended, and no record with the same
triple pre-existed. -/
theorem createReferralBonus_ok_inv (db db' : DB) (b : ReferralBonus)
    (h : createReferralBonus db b = .ok db') :
    db' = { db with bonuses := db.bonuses ++ [b] }
    ∧ (db.bonuses.any (fun x => x.referrerId == b.referrerId
        && x.referredUserId == b.referredUserId && x.type == b.type)) = false := by
  by_cases hc : (db.bonuses.any (fun x => x.referrerId == b.referrerId
      && x.referredUserId == b.referredUserId && x.type == b.type)) = true
  · simp [createReferralBonus, hc] at h
  · simp only [Bool.not_eq_true] at hc
    rw [createReferralBonus_ok_eq db b hc] at h
    simp only [Except.ok.injEq] at h
    exact ⟨h.symm, hc⟩

/-- A second creation attempt for an existing
(referrerId, referredUserId, type) triple hits the unique index. -/
theorem createReferralBonus_duplicate (db : DB) (b b₀ : ReferralBonus)
    (hb₀ : b₀ ∈ db.bonuses)
    (heq : b₀.referrerId = b.referrerId ∧ b₀.referredUserId = b.referredUserId
      ∧ b₀.type = b.type) :
    createReferralBonus db b
      = .error (.uniqueViolation "referral_bonuses_referrerId_referredUserId_type_key") := by
  have hany : (db.bonuses.any (fun x => x.referrerId == b.referrerId
      && x.referredUserId == b.referredUserId && x.type == b.type)) = true := by
    refine List.any_eq_true.mpr ⟨b₀, hb₀, ?_⟩
    simp [heq.1, heq.2.1, heq.2.2]
  simp [createReferralBonus, hany]

/-- `UniqueTriples` only depends on the bonus table. -/
theorem UniqueTriples_congr (db db' : DB) (h : db'.bonuses = db.bonuses) :
    UniqueTriples db' ↔ UniqueTriples db := by
  unfold UniqueTriples
  rw [h]

/-- A successful `createReferralBonus` preserves `UniqueTriples`: the
unique index admitted the row, so the appended table is still
duplicate-free. -/
theorem createReferralBonus_preserves_unique (db db' : DB) (b : ReferralBonus)
    (h : UniqueTriples db) (hc : createReferralBonus db b = .ok db') :
    UniqueTriples db' := by
  obtain ⟨hdb', hno⟩ := createReferralBonus_ok_inv db db' b hc
  subst hdb'
  unfold UniqueTriples
  simp only [List.pairwise_append, List.pairwise_singleton, List.mem_singleton]
  refine ⟨h, trivial, ?_⟩
  intro x hx y hy
  subst hy
  intro hcontra
  have := List.any_eq_false.mp hno x hx
  simp [hcontra.1, hcontra.2.1, hcontra.2.2] at this

/-- `chainLen` only depends on the user table. -/
theorem chainLen_congr (db db' : DB) (hu : db'.users = db.users) (u : String) :
    ∀ n, chainLen db' u n = chainLen db u n := by
  intro n
  induction n generalizing u with
  | zero => rfl
  | succ m ih =>
    unfold chainLen
    have : findUserById db' u = findUserById db u := by
      unfold findUserById
      rw [hu]
    rw [this]
    cases findUserById db u with
    | none => rfl
    | some v =>
      cases hrr : v.referredById with
      | none => simp [hrr]
      | some r => simp [hrr, ih r]

/-- The multi-level walk preserves the duplicate-free bonus table:
every record it creates goes through `createReferralBonus`, i.e.
through the table guarded by the unique index. -/
theorem processMultiLevelReferral_unique (db : DB) (rid oid : String) (amt : ℚ)
    (k : Nat) (now : String) (h : UniqueTriples db) :
    UniqueTriples (processMultiLevelReferral db rid oid amt k now) := by
  rw [processMultiLevelReferral]
  by_cases hcap : levelRates.length < k
  · simpa [hcap] using h
  · simp only [hcap, if_false]
    cases hfu : findUserById db rid with
    | none => simpa using h
    | some r =>
      cases hrr : r.referredById with
      | none => simpa [hrr] using h
      | some g =>
        simp only [hrr]
        cases ha : addFunds db g (amt * levelRates.getD (k - 1) 0) .REFERRAL_BONUS
            ("Level " ++ toString k ++ " referral bonus from network")
            (levelBonusMeta oid k amt now) with
        | error e => simpa using h
        | ok p =>
          obtain ⟨db1, tx⟩ := p
          have h1 : UniqueTriples db1 :=
            (UniqueTriples_congr db db1
              (addFunds_ok_inv db db1 g _ _ _ _ tx ha).2).mpr h
          simp only []
          cases hc : createReferralBonus db1 (levelBonusRecord g oid k amt now) with
          | error e => simpa using h1
          | ok db2 =>
            exact processMultiLevelReferral_unique db2 g oid amt (k + 1) now
              (createReferralBonus_preserves_unique db1 db2 _ h1 hc)
  termination_by levelRates.length + 1 - k
  decreasing_by simp [levelRates] at hcap ⊢; omega

/-- `processSubscriptionReferral` preserves the duplicate-free bonus
table on every path, including the partial states kept when a level-0
error is rethrown. -/
theorem processSubscriptionReferral_unique (db : DB) (u : String) (amt : ℚ)
    (now : String) (h : UniqueTriples db) :
    UniqueTriples (processSubscriptionReferral db u amt now).1 := by
  unfold processSubscriptionReferral
  cases hfu : findUserById db u with
  | none => simpa using h
  | some user =>
    cases hrr : user.referredById with
    | none => simpa [hrr] using h
    | some rid =>
      simp only [hrr]
      cases ha : addFunds db rid (amt * directReferralRate) .REFERRAL_BONUS
          ("Direct referral bonus from " ++ user.firstName ++ " " ++ user.lastName
            ++ "\x27s subscription")
          (directBonusMeta u amt now) with
      | error e => simpa using h
      | ok p =>
        obtain ⟨db1, tx⟩ := p
        have h1 : UniqueTriples db1 :=
          (UniqueTriples_congr db db1
            (addFunds_ok_inv db db1 rid _ _ _ _ tx ha).2).mpr h
        simp only []
        cases hc : createReferralBonus db1 (directBonusRecord rid u amt now) with
        | error e => simpa using h1
        | ok db2 =>
          exact processMultiLevelReferral_unique db2 rid u amt 1 now
            (createReferralBonus_preserves_unique db1 db2 _ h1 hc)

/-- `processTaskReferral` preserves the duplicate-free bonus table. -/
theorem processTaskReferral_unique (db : DB) (u : String) (amt : ℚ)
    (now : String) (h : UniqueTriples db) :
    UniqueTriples (processTaskReferral db u amt now).1 := by
  unfold processTaskReferral
  cases hfu : findUserById db u with
  | none => simpa using h
  | some user =>
    cases hrr : user.referredById with
    | none => simpa [hrr] using h
    | some rid =>
      simp only [hrr]
      cases ha : addFunds db rid (amt * directReferralRate) .REFERRAL_BONUS
          ("Task completion bonus from " ++ user.firstName ++ " " ++ user.lastName)
          (taskBonusMeta u amt now) with
      | error e => simpa using h
      | ok p =>
        obtain ⟨db1, tx⟩ := p
        have h1 : UniqueTriples db1 :=
          (UniqueTriples_congr db db1
            (addFunds_ok_inv db db1 rid _ _ _ _ tx ha).2).mpr h
        simp only []
        cases hc : createReferralBonus db1 (taskBonusRecord rid u amt now) with
        | error e => simpa using h1
        | ok db2 => simpa using createReferralBonus_preserves_unique db1 db2 _ h1 hc

/-- C7: for every fixed (referrerId, referredUserId, type) triple at
most one ReferralBonus record exists in any reachable state: the
unique index makes a second creation attempt for the same triple fail,
and every bonus-creating path of the engine (subscription level 0, the
multi-level walk, task bonuses) goes through that constrained table, so
each preserves the at-most-one-per-triple property. -/
theorem C7_unique_triples (db : DB) (u u' rid oid : String) (amt amt' : ℚ) (k : Nat)
    (now now' now'' : String) (b b₀ : ReferralBonus)
    (hU : UniqueTriples db)
    (hb₀ : b₀ ∈ db.bonuses)
    (heq : b₀.referrerId = b.referrerId ∧ b₀.referredUserId = b.referredUserId
      ∧ b₀.type = b.type) :
    createReferralBonus db b
      = .error (.uniqueViolation "referral_bonuses_referrerId_referredUserId_type_key")
    ∧ UniqueTriples (processMultiLevelReferral db rid oid amt k now)
    ∧ UniqueTriples (processSubscriptionReferral db u amt now').1
    ∧ UniqueTriples (processTaskReferral db u' amt' now'').1 :=
  ⟨createReferralBonus_duplicate db b b₀ hb₀ heq,
   processMultiLevelReferral_unique db rid oid amt k now hU,
   processSubscriptionReferral_unique db u amt now' hU,
   processTaskReferral_unique db u' amt' now'' hU⟩

/-- Witness for C7 at a concrete state holding one PAID level-0 bonus
record for the triple (R1, U, SUBSCRIPTION). -/
theorem C7_unique_triples_witness :
    UniqueTriples ⟨[⟨"U", "u@x", "U", "U", some "R1"⟩, ⟨"R1", "r@x", "R", "R", none⟩],
      [⟨"wU", "U", 0, 0⟩, ⟨"wR1", "R1", 0, 0⟩], [],
      [⟨"R1", "U", 0, 0, 25, .SUBSCRIPTION, .PAID, []⟩], 0⟩
    ∧ (⟨"R1", "U", 0, 0, 25, .SUBSCRIPTION, .PAID, []⟩ : ReferralBonus) ∈
        ([⟨"R1", "U", 0, 0, 25, .SUBSCRIPTION, .PAID, []⟩] : List ReferralBonus)
    ∧ createReferralBonus ⟨[⟨"U", "u@x", "U", "U", some "R1"⟩, ⟨"R1", "r@x", "R", "R", none⟩],
        [⟨"wU", "U", 0, 0⟩, ⟨"wR1", "R1", 0, 0⟩], [],
        [⟨"R1", "U", 0, 0, 25, .SUBSCRIPTION, .PAID, []⟩], 0⟩
        ⟨"R1", "U", 0, 0, 30, .SUBSCRIPTION, .PAID, []⟩
      = .error (.uniqueViolation "referral_bonuses_referrerId_referredUserId_type_key")
    ∧ UniqueTriples (processSubscriptionReferral
        ⟨[⟨"U", "u@x", "U", "U", some "R1"⟩, ⟨"R1", "r@x", "R", "R", none⟩],
        [⟨"wU", "U", 0, 0⟩, ⟨"wR1", "R1", 0, 0⟩], [],
        [⟨"R1", "U", 0, 0, 25, .SUBSCRIPTION, .PAID, []⟩], 0⟩ "U" 100 "t").1 := by
  have hU : UniqueTriples ⟨[⟨"U", "u@x", "U", "U", some "R1"⟩, ⟨"R1", "r@x", "R", "R", none⟩],
      [⟨"wU", "U", 0, 0⟩, ⟨"wR1", "R1", 0, 0⟩], [],
      [⟨"R1", "U", 0, 0, 25, .SUBSCRIPTION, .PAID, []⟩], 0⟩ := by
    unfold UniqueTriples
    simp
  have h := C7_unique_triples
    ⟨[⟨"U", "u@x", "U", "U", some "R1"⟩, ⟨"R1", "r@x", "R", "R", none⟩],
      [⟨"wU", "U", 0, 0⟩, ⟨"wR1", "R1", 0, 0⟩], [],
      [⟨"R1", "U", 0, 0, 25, .SUBSCRIPTION, .PAID, []⟩], 0⟩
    "U" "U" "R1" "U" 100 100 1 "t" "t" "t"
    ⟨"R1", "U", 0, 0, 30, .SUBSCRIPTION, .PAID, []⟩
    ⟨"R1", "U", 0, 0, 25, .SUBSCRIPTION, .PAID, []⟩
    hU (by decide) (by decide)
  exact ⟨hU, by decide, h.1, h.2.2.1⟩

/-- The multi-level walk creates at most
`min (N+1-k) (chain length above the current referrer)` new bonus
records when started at level `k` — in particular it terminates with a
bounded number of credits on every referrer graph. -/
theorem processMultiLevelReferral_bound (db : DB) (rid oid : String) (amt : ℚ)
    (k : Nat) (now : String) :
    (processMultiLevelReferral db rid oid amt k now).bonuses.length ≤
      db.bonuses.length +
        min (levelRates.length + 1 - k) (chainLen db rid (levelRates.length + 1 - k)) := by
  rw [processMultiLevelReferral]
  by_cases hcap : levelRates.length < k
  · simp only [hcap, if_true, reduceIte]
    omega
  · simp only [hcap, if_false]
    have hk5 : k ≤ levelRates.length := Nat.le_of_not_lt hcap
    cases hfu : findUserById db rid with
    | none => exact Nat.le_add_right _ _
    | some r =>
      cases hrr : r.referredById with
      | none =>
        simp only [hrr]
        exact Nat.le_add_right _ _
      | some g =>
        simp only [hrr]
        have hstep : chainLen db rid (levelRates.length + 1 - k)
            = 1 + chainLen db g (levelRates.length - k) := by
          have h1 : levelRates.length + 1 - k = (levelRates.length - k) + 1 := by omega
          rw [h1, chainLen]
          simp [hfu, hrr]
        cases ha : addFunds db g (amt * levelRates.getD (k - 1) 0) .REFERRAL_BONUS
            ("Level " ++ toString k ++ " referral bonus from network")
            (levelBonusMeta oid k amt now) with
        | error e =>
          show db.bonuses.length ≤ _
          exact Nat.le_add_right _ _
        | ok p =>
          obtain ⟨db1, tx⟩ := p
          obtain ⟨husers1, hbon1⟩ := addFunds_ok_inv db db1 g _ _ _ _ tx ha
          simp only []
          cases hc : createReferralBonus db1 (levelBonusRecord g oid k amt now) with
          | error e =>
            have hb : db1.bonuses.length = db.bonuses.length := by rw [hbon1]
            show db1.bonuses.length ≤ _
            omega
          | ok db2 =>
            obtain ⟨hdb2, _⟩ := createReferralBonus_ok_inv db1 db2 _ hc
            have hlen2 : db2.bonuses.length = db.bonuses.length + 1 := by
              rw [hdb2]
              simp [hbon1]
            have husers2 : db2.users = db.users := by
              rw [hdb2]
              simpa using husers1
            have hrec := processMultiLevelReferral_bound db2 g oid amt (k + 1) now
            rw [chainLen_congr db db2 husers2 g] at hrec
            have hk1 : levelRates.length + 1 - (k + 1) = levelRates.length - k := by omega
            rw [hk1] at hrec
            show (processMultiLevelReferral db2 g oid amt (k + 1) now).bonuses.length ≤ _
            omega
  termination_by levelRates.length + 1 - k
  decreasing_by simp [levelRates] at hcap ⊢; omega

/-- Scenario state for claim C9: a hypothetical referral cycle
A → B → A. -/
def scenC9 : DB :=
  { users := [⟨"A", "a@x", "Ann", "A", some "B"⟩, ⟨"B", "b@x", "Ben", "B", some "A"⟩],
    wallets := [⟨"wA", "A", 0, 0⟩, ⟨"wB", "B", 0, 0⟩],
    transactions := [], bonuses := [], nextTxId := 0 }

/-- C9: referral propagation started from any user creates at most
N+1 bonus records (N = 5, the length of the configured level-rate
list) and no more than the length of the user's referral chain — so
strictly fewer when the chain is shorter; the walk is a total function
of the state, so it terminates for every referrer graph, including the
hypothetical cycle A → B → A, where the unique index stops repeated
attribution after 2 records. -/
theorem C9_chain_termination :
    (∀ (db : DB) (u : String) (amt : ℚ) (now : String),
      ((processSubscriptionReferral db u amt now).1).bonuses.length ≤
        db.bonuses.length +
          min (levelRates.length + 1) (chainLen db u (levelRates.length + 1)))
    ∧ (processSubscriptionReferral scenC9 "A" 100 "t").1.bonuses.length = 2 := by
  constructor
  · intro db u amt now
    unfold processSubscriptionReferral
    cases hfu : findUserById db u with
    | none => simp
    | some user =>
      cases hrr : user.referredById with
      | none => simp [hrr]
      | some rid =>
        simp only [hrr]
        have hstep : chainLen db u (levelRates.length + 1)
            = 1 + chainLen db rid levelRates.length := by
          rw [chainLen]
          simp [hfu, hrr]
        cases ha : addFunds db rid (amt * directReferralRate) .REFERRAL_BONUS
            ("Direct referral bonus from " ++ user.firstName ++ " " ++ user.lastName
              ++ "\x27s subscription")
            (directBonusMeta u amt now) with
        | error e =>
          show db.bonuses.length ≤ _
          exact Nat.le_add_right _ _
        | ok p =>
          obtain ⟨db1, tx⟩ := p
          obtain ⟨husers1, hbon1⟩ := addFunds_ok_inv db db1 rid _ _ _ _ tx ha
          simp only []
          cases hc : createReferralBonus db1 (directBonusRecord rid u amt now) with
          | error e =>
            have hb : db1.bonuses.length = db.bonuses.length := by rw [hbon1]
            show db1.bonuses.length ≤ _
            omega
          | ok db2 =>
            obtain ⟨hdb2, _⟩ := createReferralBonus_ok_inv db1 db2 _ hc
            have hlen2 : db2.bonuses.length = db.bonuses.length + 1 := by
              rw [hdb2]
              simp [hbon1]
            have husers2 : db2.users = db.users := by
              rw [hdb2]
              simpa using husers1
            have hrec := processMultiLevelReferral_bound db2 rid u amt 1 now
            rw [chainLen_congr db db2 husers2 rid] at hrec
            have hk1 : levelRates.length + 1 - 1 = levelRates.length := by omega
            rw [hk1] at hrec
            show (processMultiLevelReferral db2 rid u amt 1 now).bonuses.length ≤ _
            omega
  · simp [processSubscriptionReferral, processMultiLevelReferral, scenC9,
      addFunds, createReferralBonus, findUserById, findWalletByUserId, updateWallet,
      appendTransaction, directBonusRecord, levelBonusRecord, levelRates]

@[simp] theorem findWalletByUserId_setBonuses (db : DB) (bs : List ReferralBonus)
    (u : String) :
    findWalletByUserId { db with bonuses := bs } u = findWalletByUserId db u := rfl

/-- Scenario state for claim C6: the chain U → R1 → R2 → R3, R3 without
a referrer, all wallets empty. -/
def scenC6 : DB :=
  { users := [⟨"U", "u@x", "Uma", "U", some "R1"⟩,
              ⟨"R1", "r1@x", "Ra", "A", some "R2"⟩,
              ⟨"R2", "r2@x", "Rb", "B", some "R3"⟩,
              ⟨"R3", "r3@x", "Rc", "C", none⟩],
    wallets := [⟨"wU", "U", 0, 0⟩, ⟨"wR1", "R1", 0, 0⟩,
                ⟨"wR2", "R2", 0, 0⟩, ⟨"wR3", "R3", 0, 0⟩],
    transactions := [], bonuses := [], nextTxId := 0 }

/-- C6: at propagation level k (1 ≤ k ≤ N) the bonus equals
`amount * levelRates[k-1]`, it is credited via `addFunds` (type
REFERRAL_BONUS) to the wallet of the current referrer's own referrer,
and one ReferralBonus row is created with referrerId = that
grand-referrer, referredUserId = the original triggering user, the
current level, type SUBSCRIPTION and status PAID; for the chain
U → R1 → R2 → R3 with amount 100, R2 is credited 3 at level 1, R3 is
credited 2 at level 2, and exactly 3 bonus records exist in total. -/
theorem C6_level_bonus
    (db dbStep : DB) (rid oid g now : String) (amt : ℚ) (k : Nat) (r : User) (w : Wallet)
    (hk1 : 1 ≤ k) (hk5 : k ≤ levelRates.length)
    (hfu : findUserById db rid = some r)
    (hrr : r.referredById = some g)
    (hw : findWalletByUserId db g = some w)
    (hno : (db.bonuses.any (fun x => x.referrerId == g && x.referredUserId == oid
      && x.type == ReferralBonusType.SUBSCRIPTION)) = false)
    (hstep : dbStep =
      { appendTransaction
          (updateWallet db w.id
            (fun x => { x with balance := w.balance + amt * levelRates.getD (k - 1) 0 }))
          ⟨db.nextTxId, w.id, .REFERRAL_BONUS, amt * levelRates.getD (k - 1) 0,
            "Level " ++ toString k ++ " referral bonus from network", .COMPLETED,
            levelBonusMeta oid k amt now⟩ with
          bonuses := db.bonuses ++ [levelBonusRecord g oid k amt now] }) :
    processMultiLevelReferral db rid oid amt k now
      = processMultiLevelReferral dbStep g oid amt (k + 1) now
    ∧ findWalletByUserId dbStep g
      = some { w with balance := w.balance + amt * levelRates.getD (k - 1) 0 }
    ∧ dbStep.bonuses = db.bonuses ++ [levelBonusRecord g oid k amt now]
    ∧ dbStep.transactions = db.transactions ++
        [⟨db.nextTxId, w.id, .REFERRAL_BONUS, amt * levelRates.getD (k - 1) 0,
          "Level " ++ toString k ++ " referral bonus from network", .COMPLETED,
          levelBonusMeta oid k amt now⟩]
    ∧ (levelBonusRecord g oid k amt now).referrerId = g
    ∧ (levelBonusRecord g oid k amt now).referredUserId = oid
    ∧ (levelBonusRecord g oid k amt now).level = k
    ∧ (levelBonusRecord g oid k amt now).type = .SUBSCRIPTION
    ∧ (levelBonusRecord g oid k amt now).status = .PAID
    ∧ (levelBonusRecord g oid k amt now).amount = amt * levelRates.getD (k - 1) 0
    ∧ ((processSubscriptionReferral scenC6 "U" 100 "t").1.bonuses.map
        (fun b => (b.referrerId, b.referredUserId, b.level, b.type, b.status)))
      = [("R1", "U", 0, ReferralBonusType.SUBSCRIPTION, ReferralBonusStatus.PAID),
         ("R2", "U", 1, ReferralBonusType.SUBSCRIPTION, ReferralBonusStatus.PAID),
         ("R3", "U", 2, ReferralBonusType.SUBSCRIPTION, ReferralBonusStatus.PAID)]
    ∧ ((findWalletByUserId (processSubscriptionReferral scenC6 "U" 100 "t").1 "R2").map
        Wallet.balance) = some 3
    ∧ ((findWalletByUserId (processSubscriptionReferral scenC6 "U" 100 "t").1 "R3").map
        Wallet.balance) = some 2
    ∧ (processSubscriptionReferral scenC6 "U" 100 "t").1.bonuses.length = 3 := by
  have hcap : ¬ (levelRates.length < k) := Nat.not_lt.mpr hk5
  have haf := addFunds_ok_eq db g (amt * levelRates.getD (k - 1) 0) .REFERRAL_BONUS
    ("Level " ++ toString k ++ " referral bonus from network")
    (levelBonusMeta oid k amt now) w hw
  have hno' : ((appendTransaction
        (updateWallet db w.id
          (fun x => { x with balance := w.balance + amt * levelRates.getD (k - 1) 0 }))
        ⟨db.nextTxId, w.id, .REFERRAL_BONUS, amt * levelRates.getD (k - 1) 0,
          "Level " ++ toString k ++ " referral bonus from network", .COMPLETED,
          levelBonusMeta oid k amt now⟩).bonuses.any
      (fun x => x.referrerId == (levelBonusRecord g oid k amt now).referrerId
        && x.referredUserId == (levelBonusRecord g oid k amt now).referredUserId
        && x.type == (levelBonusRecord g oid k amt now).type)) = false := by
    simpa [levelBonusRecord] using hno
  have hcr := createReferralBonus_ok_eq _ (levelBonusRecord g oid k amt now) hno'
  refine ⟨?_, ?_, ?_, ?_, rfl, rfl, rfl, rfl, rfl, rfl, ?_, ?_, ?_, ?_⟩
  · conv_lhs => rw [processMultiLevelReferral]
    simp only [hcap, if_false, hfu, hrr, haf, hcr]
    rw [hstep]
    exact rfl
  · rw [hstep]
    simp only [findWalletByUserId_setBonuses, findWalletByUserId_appendTransaction]
    rw [findWalletByUserId_updateWallet db w.id
      (fun x => { id := x.id, userId := x.userId,
                  balance := w.balance + amt * levelRates.getD (k - 1) 0,
                  locked := x.locked })
      g (fun _ => rfl), hw]
    simp
  · rw [hstep]
  · rw [hstep]
    simp
  · simp [processSubscriptionReferral, processMultiLevelReferral, scenC6,
      addFunds, createReferralBonus, findUserById, findWalletByUserId, updateWallet,
      appendTransaction, directBonusRecord, levelBonusRecord, levelRates]
  · simp [processSubscriptionReferral, processMultiLevelReferral, scenC6,
      addFunds, createReferralBonus, findUserById, findWalletByUserId, updateWallet,
      appendTransaction, directBonusRecord, levelBonusRecord, levelRates,
      directReferralRate]
    norm_num
  · simp [processSubscriptionReferral, processMultiLevelReferral, scenC6,
      addFunds, createReferralBonus, findUserById, findWalletByUserId, updateWallet,
      appendTransaction, directBonusRecord, levelBonusRecord, levelRates,
      directReferralRate]
    norm_num
  · simp [processSubscriptionReferral, processMultiLevelReferral, scenC6,
      addFunds, createReferralBonus, findUserById, findWalletByUserId, updateWallet,
      appendTransaction, directBonusRecord, levelBonusRecord, levelRates]

/-- Witness for C6 at level k = 1: referrer R1 whose own referrer R2
owns wallet wR2, subscription amount 100. -/
theorem C6_level_bonus_witness :
    ((1 : Nat) ≤ 1) ∧ (1 ≤ levelRates.length)
    ∧ (findUserById ⟨[⟨"R1", "r@x", "R", "A", some "R2"⟩], [⟨"wR2", "R2", 0, 0⟩], [], [], 0⟩
        "R1" = some ⟨"R1", "r@x", "R", "A", some "R2"⟩)
    ∧ (findWalletByUserId ⟨[⟨"R1", "r@x", "R", "A", some "R2"⟩], [⟨"wR2", "R2", 0, 0⟩], [], [], 0⟩
        "R2" = some ⟨"wR2", "R2", 0, 0⟩)
    ∧ (processMultiLevelReferral
        ⟨[⟨"R1", "r@x", "R", "A", some "R2"⟩], [⟨"wR2", "R2", 0, 0⟩], [], [], 0⟩
        "R1" "U" 100 1 "t"
      = processMultiLevelReferral
        { appendTransaction
            (updateWallet ⟨[⟨"R1", "r@x", "R", "A", some "R2"⟩], [⟨"wR2", "R2", 0, 0⟩], [], [], 0⟩
              "wR2" (fun x => { x with balance := 0 + 100 * levelRates.getD 0 0 }))
            ⟨0, "wR2", .REFERRAL_BONUS, 100 * levelRates.getD 0 0,
              "Level " ++ toString 1 ++ " referral bonus from network", .COMPLETED,
              levelBonusMeta "U" 1 100 "t"⟩ with
            bonuses := [levelBonusRecord "R2" "U" 1 100 "t"] }
        "R2" "U" 100 2 "t")
    ∧ (findWalletByUserId
        { appendTransaction
            (updateWallet ⟨[⟨"R1", "r@x", "R", "A", some "R2"⟩], [⟨"wR2", "R2", 0, 0⟩], [], [], 0⟩
              "wR2" (fun x => { x with balance := 0 + 100 * levelRates.getD 0 0 }))
            ⟨0, "wR2", .REFERRAL_BONUS, 100 * levelRates.getD 0 0,
              "Level " ++ toString 1 ++ " referral bonus from network", .COMPLETED,
              levelBonusMeta "U" 1 100 "t"⟩ with
            bonuses := [levelBonusRecord "R2" "U" 1 100 "t"] } "R2"
      = some ⟨"wR2", "R2", 0 + 100 * levelRates.getD 0 0, 0⟩) := by
  have h := C6_level_bonus
    ⟨[⟨"R1", "r@x", "R", "A", some "R2"⟩], [⟨"wR2", "R2", 0, 0⟩], [], [], 0⟩
    { appendTransaction
        (updateWallet ⟨[⟨"R1", "r@x", "R", "A", some "R2"⟩], [⟨"wR2", "R2", 0, 0⟩], [], [], 0⟩
          "wR2" (fun x => { x with balance := 0 + 100 * levelRates.getD 0 0 }))
        ⟨0, "wR2", .REFERRAL_BONUS, 100 * levelRates.getD 0 0,
          "Level " ++ toString 1 ++ " referral bonus from network", .COMPLETED,
          levelBonusMeta "U" 1 100 "t"⟩ with
        bonuses := [levelBonusRecord "R2" "U" 1 100 "t"] }
    "R1" "U" "R2" "t" 100 1 ⟨"R1", "r@x", "R", "A", some "R2"⟩ ⟨"wR2", "R2", 0, 0⟩
    (by decide) (by decide) (by decide) (by decide) (by decide) (by decide) rfl
  exact ⟨by decide, by decide, by decide, by decide, h.1, h.2.1⟩

/-- Scenario state for claim C1: the chain U → R1 → R2 → R3 where R2
has no wallet (so crediting R2 at level 1 throws inside the engine)
while R3 does have a wallet (so a level-2 credit would be possible). -/
def scenC1 : DB :=
  { users := [⟨"U", "u@x", "Uma", "U", some "R1"⟩,
              ⟨"R1", "r1@x", "Ra", "A", some "R2"⟩,
              ⟨"R2", "r2@x", "Rb", "B", some "R3"⟩,
              ⟨"R3", "r3@x", "Rc", "C", none⟩],
    wallets := [⟨"wU", "U", 0, 0⟩, ⟨"wR1", "R1", 0, 0⟩, ⟨"wR3", "R3", 0, 0⟩],
    transactions := [], bonuses := [], nextTxId := 0 }

/-- C1 counterexample: with the chain U → R1 → R2 → R3 where R2 lacks a
wallet, the level-1 credit fails; the claim says propagation continues
on a best-effort basis and a failure at level k does not prevent
attempting level k+1, but the catch block wraps the recursive call, so
level 2 is never attempted: the run returns success with only the
level-0 record, R3 (the possible level-2 beneficiary, within the cap)
is never credited and no level-1 or level-2 record exists. -/
theorem C1_counterexample :
    ((processSubscriptionReferral scenC1 "U" 100 "t").2 = .ok (some (25, "R1")))
    ∧ (((processSubscriptionReferral scenC1 "U" 100 "t").1.bonuses.map
        (fun b => b.level)) = [0])
    ∧ ((findWalletByUserId (processSubscriptionReferral scenC1 "U" 100 "t").1 "R3").map
        Wallet.balance = some 0)
    ∧ (findUserById scenC1 "R2" = some ⟨"R2", "r2@x", "Rb", "B", some "R3"⟩)
    ∧ ((findWalletByUserId scenC1 "R3").isSome = true)
    ∧ ((2 : Nat) ≤ levelRates.length) := by
  refine ⟨?_, ?_, ?_, by decide, by decide, by decide⟩
  · simp [processSubscriptionReferral, processMultiLevelReferral, scenC1,
      addFunds, createReferralBonus, findUserById, findWalletByUserId, updateWallet,
      appendTransaction, directBonusRecord, levelBonusRecord, levelRates,
      directReferralRate]
    norm_num
  · simp [processSubscriptionReferral, processMultiLevelReferral, scenC1,
      addFunds, createReferralBonus, findUserById, findWalletByUserId, updateWallet,
      appendTransaction, directBonusRecord, levelBonusRecord, levelRates]
  · simp [processSubscriptionReferral, processMultiLevelReferral, scenC1,
      addFunds, createReferralBonus, findUserById, findWalletByUserId, updateWallet,
      appendTransaction, directBonusRecord, levelBonusRecord, levelRates]

/-- C1 (amended): an error crediting or recording a bonus at a level
k ≥ 1 is caught inside the walk: it does not surface to the engine's
caller (a run whose level-0 credit and record succeed returns `.ok`
whatever happens at deeper levels), and it does not roll back the
already-committed credits and records of levels below k (the state
accumulated so far is returned unchanged); however it terminates the
walk — levels above k are not attempted. An error at level 0 itself is
rethrown to the caller (for both a failing credit and a failing record,
the latter keeping the already-committed level-0 credit). -/
theorem C1_amended
    (db db1 db2 : DB) (u rid now : String) (amt : ℚ) (user : User) (tx0 : Transaction)
    (dbk : DB) (ridk oidk gk nowk : String) (amtk : ℚ) (k : Nat) (rk : User) (e : Err)
    (dbm db1m : DB) (ridm oidm gm nowm : String) (amtm : ℚ) (m : Nat) (rm : User)
    (txm : Transaction) (em : Err)
    (dbz : DB) (uz ridz nowz : String) (amtz : ℚ) (userz : User) (ez : Err)
    (dby db1y : DB) (uy ridy nowy : String) (amty : ℚ) (usery : User)
    (txy : Transaction) (ey : Err)
    (hu : findUserById db u = some user) (hr : user.referredById = some rid)
    (h0 : addFunds db rid (amt * directReferralRate) .REFERRAL_BONUS
      ("Direct referral bonus from " ++ user.firstName ++ " " ++ user.lastName
        ++ "\x27s subscription")
      (directBonusMeta u amt now) = .ok (db1, tx0))
    (hc : createReferralBonus db1 (directBonusRecord rid u amt now) = .ok db2)
    (hk1 : 1 ≤ k) (hk5 : k ≤ levelRates.length)
    (hfk : findUserById dbk ridk = some rk) (hgk : rk.referredById = some gk)
    (hek : addFunds dbk gk (amtk * levelRates.getD (k - 1) 0) .REFERRAL_BONUS
      ("Level " ++ toString k ++ " referral bonus from network")
      (levelBonusMeta oidk k amtk nowk) = .error e)
    (hm1 : 1 ≤ m) (hm5 : m ≤ levelRates.length)
    (hfm : findUserById dbm ridm = some rm) (hgm : rm.referredById = some gm)
    (ham : addFunds dbm gm (amtm * levelRates.getD (m - 1) 0) .REFERRAL_BONUS
      ("Level " ++ toString m ++ " referral bonus from network")
      (levelBonusMeta oidm m amtm nowm) = .ok (db1m, txm))
    (hcm : createReferralBonus db1m (levelBonusRecord gm oidm m amtm nowm)
      = .error em)
    (huz : findUserById dbz uz = some userz) (hrz : userz.referredById = some ridz)
    (hez : addFunds dbz ridz (amtz * directReferralRate) .REFERRAL_BONUS
      ("Direct referral bonus from " ++ userz.firstName ++ " " ++ userz.lastName
        ++ "\x27s subscription")
      (directBonusMeta uz amtz nowz) = .error ez)
    (huy : findUserById dby uy = some usery) (hry : usery.referredById = some ridy)
    (hay : addFunds dby ridy (amty * directReferralRate) .REFERRAL_BONUS
      ("Direct referral bonus from " ++ usery.firstName ++ " " ++ usery.lastName
        ++ "\x27s subscription")
      (directBonusMeta uy amty nowy) = .ok (db1y, txy))
    (hcy : createReferralBonus db1y (directBonusRecord ridy uy amty nowy)
      = .error ey) :
    processSubscriptionReferral db u amt now
      = (processMultiLevelReferral db2 rid u amt 1 now,
         .ok (some (amt * directReferralRate, rid)))
    ∧ processMultiLevelReferral dbk ridk oidk amtk k nowk = dbk
    ∧ processMultiLevelReferral dbm ridm oidm amtm m nowm = db1m
    ∧ processSubscriptionReferral dbz uz amtz nowz = (dbz, .error ez)
    ∧ processSubscriptionReferral dby uy amty nowy = (db1y, .error ey) := by
  refine ⟨?_, ?_, ?_, ?_, ?_⟩
  · unfold processSubscriptionReferral
    simp only [hu, hr, h0, hc]
  · conv_lhs => rw [processMultiLevelReferral]
    simp only [Nat.not_lt.mpr hk5, if_false, hfk, hgk, hek]
  · conv_lhs => rw [processMultiLevelReferral]
    simp only [Nat.not_lt.mpr hm5, if_false, hfm, hgm, ham, hcm]
  · unfold processSubscriptionReferral
    simp only [huz, hrz, hez]
  · unfold processSubscriptionReferral
    simp only [huy, hry, hay, hcy]

/-- Witness for C1 (amended) at five concrete runs: a successful
level-0 chain U → R1; a level-1 credit failure (grand-referrer R2 has
no wallet); a level-1 record failure (duplicate triple) after a
committed credit; a level-0 credit failure (referrer R1 has no wallet)
rethrown to the caller; and a level-0 record failure (duplicate
triple) rethrown to the caller with the committed credit retained. -/
theorem C1_amended_witness :
    (findUserById ⟨[⟨"U", "u@x", "Uma", "U", some "R1"⟩, ⟨"R1", "r@x", "Ra", "A", none⟩],
        [⟨"wR1", "R1", 0, 0⟩], [], [], 0⟩ "U"
      = some ⟨"U", "u@x", "Uma", "U", some "R1"⟩)
    ∧ (findUserById ⟨[⟨"R1", "r@x", "Ra", "A", some "R2"⟩], [], [], [], 0⟩ "R1"
      = some ⟨"R1", "r@x", "Ra", "A", some "R2"⟩)
    ∧ (processSubscriptionReferral
        ⟨[⟨"U", "u@x", "Uma", "U", some "R1"⟩, ⟨"R1", "r@x", "Ra", "A", none⟩],
          [⟨"wR1", "R1", 0, 0⟩], [], [], 0⟩ "U" 100 "t"
      = (processMultiLevelReferral
          { appendTransaction
              (updateWallet
                ⟨[⟨"U", "u@x", "Uma", "U", some "R1"⟩, ⟨"R1", "r@x", "Ra", "A", none⟩],
                  [⟨"wR1", "R1", 0, 0⟩], [], [], 0⟩
                "wR1" (fun x => { x with balance := 0 + 100 * directReferralRate }))
              ⟨0, "wR1", .REFERRAL_BONUS, 100 * directReferralRate,
                "Direct referral bonus from " ++ "Uma" ++ " " ++ "U" ++ "\x27s subscription",
                .COMPLETED, directBonusMeta "U" 100 "t"⟩ with
              bonuses := [directBonusRecord "R1" "U" 100 "t"] }
          "R1" "U" 100 1 "t",
         .ok (some (100 * directReferralRate, "R1"))))
    ∧ (processMultiLevelReferral ⟨[⟨"R1", "r@x", "Ra", "A", some "R2"⟩], [], [], [], 0⟩
        "R1" "U" 100 1 "t"
      = ⟨[⟨"R1", "r@x", "Ra", "A", some "R2"⟩], [], [], [], 0⟩)
    ∧ (processMultiLevelReferral
        ⟨[⟨"R1", "r@x", "Ra", "A", some "R2"⟩], [⟨"wR2", "R2", 0, 0⟩], [],
          [⟨"R2", "U", 0, 0, 25, .SUBSCRIPTION, .PAID, []⟩], 0⟩
        "R1" "U" 100 1 "t"
      = appendTransaction
          (updateWallet
            ⟨[⟨"R1", "r@x", "Ra", "A", some "R2"⟩], [⟨"wR2", "R2", 0, 0⟩], [],
              [⟨"R2", "U", 0, 0, 25, .SUBSCRIPTION, .PAID, []⟩], 0⟩
            "wR2" (fun x => { x with balance := 0 + 100 * levelRates.getD 0 0 }))
          ⟨0, "wR2", .REFERRAL_BONUS, 100 * levelRates.getD 0 0,
            "Level " ++ toString 1 ++ " referral bonus from network", .COMPLETED,
            levelBonusMeta "U" 1 100 "t"⟩)
    ∧ (processSubscriptionReferral
        ⟨[⟨"U", "u@x", "Uma", "U", some "R1"⟩, ⟨"R1", "r@x", "Ra", "A", none⟩],
          [], [], [], 0⟩ "U" 100 "t"
      = (⟨[⟨"U", "u@x", "Uma", "U", some "R1"⟩, ⟨"R1", "r@x", "Ra", "A", none⟩],
          [], [], [], 0⟩,
         .error (.notFound "Wallet not found")))
    ∧ (processSubscriptionReferral
        ⟨[⟨"U", "u@x", "Uma", "U", some "R1"⟩, ⟨"R1", "r@x", "Ra", "A", none⟩],
          [⟨"wR1", "R1", 0, 0⟩], [],
          [⟨"R1", "U", 0, 0, 25, .SUBSCRIPTION, .PAID, []⟩], 0⟩ "U" 100 "t"
      = (appendTransaction
          (updateWallet
            ⟨[⟨"U", "u@x", "Uma", "U", some "R1"⟩, ⟨"R1", "r@x", "Ra", "A", none⟩],
              [⟨"wR1", "R1", 0, 0⟩], [],
              [⟨"R1", "U", 0, 0, 25, .SUBSCRIPTION, .PAID, []⟩], 0⟩
            "wR1" (fun x => { x with balance := 0 + 100 * directReferralRate }))
          ⟨0, "wR1", .REFERRAL_BONUS, 100 * directReferralRate,
            "Direct referral bonus from " ++ "Uma" ++ " " ++ "U" ++ "\x27s subscription",
            .COMPLETED, directBonusMeta "U" 100 "t"⟩,
         .error (.uniqueViolation "referral_bonuses_referrerId_referredUserId_type_key"))) := by
  have h := C1_amended
    ⟨[⟨"U", "u@x", "Uma", "U", some "R1"⟩, ⟨"R1", "r@x", "Ra", "A", none⟩],
      [⟨"wR1", "R1", 0, 0⟩], [], [], 0⟩
    (appendTransaction
      (updateWallet
        ⟨[⟨"U", "u@x", "Uma", "U", some "R1"⟩, ⟨"R1", "r@x", "Ra", "A", none⟩],
          [⟨"wR1", "R1", 0, 0⟩], [], [], 0⟩
        "wR1" (fun x => { x with balance := 0 + 100 * directReferralRate }))
      ⟨0, "wR1", .REFERRAL_BONUS, 100 * directReferralRate,
        "Direct referral bonus from " ++ "Uma" ++ " " ++ "U" ++ "\x27s subscription",
        .COMPLETED, directBonusMeta "U" 100 "t"⟩)
    { appendTransaction
        (updateWallet
          ⟨[⟨"U", "u@x", "Uma", "U", some "R1"⟩, ⟨"R1", "r@x", "Ra", "A", none⟩],
            [⟨"wR1", "R1", 0, 0⟩], [], [], 0⟩
          "wR1" (fun x => { x with balance := 0 + 100 * directReferralRate }))
        ⟨0, "wR1", .REFERRAL_BONUS, 100 * directReferralRate,
          "Direct referral bonus from " ++ "Uma" ++ " " ++ "U" ++ "\x27s subscription",
          .COMPLETED, directBonusMeta "U" 100 "t"⟩ with
        bonuses := [directBonusRecord "R1" "U" 100 "t"] }
    "U" "R1" "t" 100 ⟨"U", "u@x", "Uma", "U", some "R1"⟩
    ⟨0, "wR1", .REFERRAL_BONUS, 100 * directReferralRate,
      "Direct referral bonus from " ++ "Uma" ++ " " ++ "U" ++ "\x27s subscription",
      .COMPLETED, directBonusMeta "U" 100 "t"⟩
    ⟨[⟨"R1", "r@x", "Ra", "A", some "R2"⟩], [], [], [], 0⟩
    "R1" "U" "R2" "t" 100 1 ⟨"R1", "r@x", "Ra", "A", some "R2"⟩
    (.notFound "Wallet not found")
    ⟨[⟨"R1", "r@x", "Ra", "A", some "R2"⟩], [⟨"wR2", "R2", 0, 0⟩], [],
      [⟨"R2", "U", 0, 0, 25, .SUBSCRIPTION, .PAID, []⟩], 0⟩
    (appendTransaction
      (updateWallet
        ⟨[⟨"R1", "r@x", "Ra", "A", some "R2"⟩], [⟨"wR2", "R2", 0, 0⟩], [],
          [⟨"R2", "U", 0, 0, 25, .SUBSCRIPTION, .PAID, []⟩], 0⟩
        "wR2" (fun x => { x with balance := 0 + 100 * levelRates.getD 0 0 }))
      ⟨0, "wR2", .REFERRAL_BONUS, 100 * levelRates.getD 0 0,
        "Level " ++ toString 1 ++ " referral bonus from network", .COMPLETED,
        levelBonusMeta "U" 1 100 "t"⟩)
    "R1" "U" "R2" "t" 100 1 ⟨"R1", "r@x", "Ra", "A", some "R2"⟩
    ⟨0, "wR2", .REFERRAL_BONUS, 100 * levelRates.getD 0 0,
      "Level " ++ toString 1 ++ " referral bonus from network", .COMPLETED,
      levelBonusMeta "U" 1 100 "t"⟩
    (.uniqueViolation "referral_bonuses_referrerId_referredUserId_type_key")
    ⟨[⟨"U", "u@x", "Uma", "U", some "R1"⟩, ⟨"R1", "r@x", "Ra", "A", none⟩],
      [], [], [], 0⟩
    "U" "R1" "t" 100 ⟨"U", "u@x", "Uma", "U", some "R1"⟩
    (.notFound "Wallet not found")
    ⟨[⟨"U", "u@x", "Uma", "U", some "R1"⟩, ⟨"R1", "r@x", "Ra", "A", none⟩],
      [⟨"wR1", "R1", 0, 0⟩], [],
      [⟨"R1", "U", 0, 0, 25, .SUBSCRIPTION, .PAID, []⟩], 0⟩
    (appendTransaction
      (updateWallet
        ⟨[⟨"U", "u@x", "Uma", "U", some "R1"⟩, ⟨"R1", "r@x", "Ra", "A", none⟩],
          [⟨"wR1", "R1", 0, 0⟩], [],
          [⟨"R1", "U", 0, 0, 25, .SUBSCRIPTION, .PAID, []⟩], 0⟩
        "wR1" (fun x => { x with balance := 0 + 100 * directReferralRate }))
      ⟨0, "wR1", .REFERRAL_BONUS, 100 * directReferralRate,
        "Direct referral bonus from " ++ "Uma" ++ " " ++ "U" ++ "\x27s subscription",
        .COMPLETED, directBonusMeta "U" 100 "t"⟩)
    "U" "R1" "t" 100 ⟨"U", "u@x", "Uma", "U", some "R1"⟩
    ⟨0, "wR1", .REFERRAL_BONUS, 100 * directReferralRate,
      "Direct referral bonus from " ++ "Uma" ++ " " ++ "U" ++ "\x27s subscription",
      .COMPLETED, directBonusMeta "U" 100 "t"⟩
    (.uniqueViolation "referral_bonuses_referrerId_referredUserId_type_key")
    (by decide) (by decide)
    (addFunds_ok_eq _ "R1" (100 * directReferralRate) .REFERRAL_BONUS _ _
      ⟨"wR1", "R1", 0, 0⟩ (by decide))
    (createReferralBonus_ok_eq _ (directBonusRecord "R1" "U" 100 "t") (by decide))
    (by decide) (by decide) (by decide) (by decide)
    (addFunds_none_eq _ "R2" (100 * levelRates.getD 0 0) .REFERRAL_BONUS _ _ (by decide))
    (by decide) (by decide) (by decide) (by decide)
    (addFunds_ok_eq _ "R2" (100 * levelRates.getD 0 0) .REFERRAL_BONUS _ _
      ⟨"wR2", "R2", 0, 0⟩ (by decide))
    (createReferralBonus_duplicate _ (levelBonusRecord "R2" "U" 1 100 "t")
      ⟨"R2", "U", 0, 0, 25, .SUBSCRIPTION, .PAID, []⟩ (by decide) (by decide))
    (by decide) (by decide)
    (addFunds_none_eq _ "R1" (100 * directReferralRate) .REFERRAL_BONUS _ _ (by decide))
    (by decide) (by decide)
    (addFunds_ok_eq _ "R1" (100 * directReferralRate) .REFERRAL_BONUS _ _
      ⟨"wR1", "R1", 0, 0⟩ (by decide))
    (createReferralBonus_duplicate _ (directBonusRecord "R1" "U" 100 "t")
      ⟨"R1", "U", 0, 0, 25, .SUBSCRIPTION, .PAID, []⟩ (by decide) (by decide))
  exact ⟨by decide, by decide, h.1, h.2.1, h.2.2.1, h.2.2.2.1, h.2.2.2.2⟩

end Rigaby
